import Mathlib

/-!
Verification development for the fdw repository (a Windows PE dependency
walker written in Rust).  The Rust sources under src/ are shallowly
embedded below:

* src/pe.rs      — byte cursor, DOS/NT/optional headers, section table
                   and descriptors, RVA translation, parse_pe;
* src/apiset.rs  — API-Set schema structures, parse_apiset,
                   load_apisetschema_mapping;
* src/search.rs  — find_dll-based dependency resolution, the flat and the
                   recursive resolver with cache and visited set.

Modelling conventions:
* machine integers are Nat; u32/u64 overflow is written explicitly with
  mod 2^32 / mod 2^64 at the spots where Rust release-mode arithmetic
  wraps;
* a file is a list of byte values; the filesystem is a function from path
  strings to optional byte lists; io::Cursor is a byte list plus a
  position;
* Rust Result is Except String, Option is Option; a Rust panic
  (expect / todo!) inside a parsing routine is modelled as an error
  result whose message is prefixed with "panic: ";
* HashMap is an association list whose insert replaces the binding of an
  existing key; HashSet is a duplicate-free list; iteration order of
  HashMap::values is modelled as list order (the theorems below only
  state order-independent facts about such maps);
* filesystem traversal done by search.rs::find_dll and the parsing of a
  dependency file are abstracted into an environment record Env, since
  they are I/O; everything after those two calls follows search.rs
  line by line.
-/

/-! ## Byte cursor (io::Cursor<Vec<u8>> with byteorder little-endian reads) -/

structure Cursor where
  data : List Nat
  pos : Nat
deriving Repr

def Cursor.setPos (c : Cursor) (p : Nat) : Cursor := ⟨c.data, p⟩

def readU8 (c : Cursor) : Except String (Nat × Cursor) :=
  match c.data.get? c.pos with
  | some b => .ok (b, ⟨c.data, c.pos + 1⟩)
  | none => .error "unexpected end of file"

def readU16 (c : Cursor) : Except String (Nat × Cursor) := do
  let (b0, c) ← readU8 c
  let (b1, c) ← readU8 c
  .ok (b0 + 256 * b1, c)

def readU32 (c : Cursor) : Except String (Nat × Cursor) := do
  let (b0, c) ← readU8 c
  let (b1, c) ← readU8 c
  let (b2, c) ← readU8 c
  let (b3, c) ← readU8 c
  .ok (b0 + 256 * b1 + 65536 * b2 + 16777216 * b3, c)

def readU64 (c : Cursor) : Except String (Nat × Cursor) := do
  let (lo, c) ← readU32 c
  let (hi, c) ← readU32 c
  .ok (lo + 4294967296 * hi, c)

/-- Null-terminated byte-string read (loop of read_u8 until a 0 byte),
over the byte list that starts at the cursor position. -/
def read_null_terminated : List Nat → Option (List Nat)
  | [] => none
  | b :: rest => if b = 0 then some [] else (read_null_terminated rest).map (b :: ·)

/-! ## UTF-8 and UTF-16 decoding (String::from_utf8 / String::from_utf16) -/

/-- Strict UTF-8 validation and decoding, as String::from_utf8 does. -/
def utf8_decode : List Nat → Option (List Char)
  | [] => some []
  | b :: rest =>
    if b < 0x80 then (utf8_decode rest).map (Char.ofNat b :: ·)
    else if 0xC2 ≤ b ∧ b ≤ 0xDF then
      match rest with
      | c1 :: rest2 =>
        if 0x80 ≤ c1 ∧ c1 ≤ 0xBF then
          (utf8_decode rest2).map (Char.ofNat ((b - 0xC0) * 64 + (c1 - 0x80)) :: ·)
        else none
      | [] => none
    else if 0xE0 ≤ b ∧ b ≤ 0xEF then
      match rest with
      | c1 :: c2 :: rest2 =>
        let lo1 := if b = 0xE0 then 0xA0 else 0x80
        let hi1 := if b = 0xED then 0x9F else 0xBF
        if (lo1 ≤ c1 ∧ c1 ≤ hi1) ∧ (0x80 ≤ c2 ∧ c2 ≤ 0xBF) then
          (utf8_decode rest2).map
            (Char.ofNat ((b - 0xE0) * 4096 + (c1 - 0x80) * 64 + (c2 - 0x80)) :: ·)
        else none
      | _ => none
    else if 0xF0 ≤ b ∧ b ≤ 0xF4 then
      match rest with
      | c1 :: c2 :: c3 :: rest2 =>
        let lo1 := if b = 0xF0 then 0x90 else 0x80
        let hi1 := if b = 0xF4 then 0x8F else 0xBF
        if (lo1 ≤ c1 ∧ c1 ≤ hi1) ∧ (0x80 ≤ c2 ∧ c2 ≤ 0xBF) ∧ (0x80 ≤ c3 ∧ c3 ≤ 0xBF) then
          (utf8_decode rest2).map
            (Char.ofNat ((b - 0xF0) * 262144 + (c1 - 0x80) * 4096 + (c2 - 0x80) * 64 + (c3 - 0x80)) :: ·)
        else none
      | _ => none
    else none

/-- Reinterpret a byte list as little-endian u16 code units
(align_to::<u16> with the buffer assumed 2-aligned: a trailing odd byte
lands in the back slice, which src/apiset.rs silently ignores because its
front-and-back emptiness check can never fire on an aligned buffer). -/
def utf16_units : List Nat → List Nat
  | b0 :: b1 :: rest => (b0 + 256 * b1) :: utf16_units rest
  | _ => []

/-- UTF-16 validation and decoding, as String::from_utf16 does. -/
def utf16_decode : List Nat → Option (List Char)
  | [] => some []
  | u :: rest =>
    if u < 0xD800 ∨ 0xDFFF < u then (utf16_decode rest).map (Char.ofNat u :: ·)
    else if u ≤ 0xDBFF then
      match rest with
      | u2 :: rest2 =>
        if 0xDC00 ≤ u2 ∧ u2 ≤ 0xDFFF then
          (utf16_decode rest2).map
            (Char.ofNat (0x10000 + (u - 0xD800) * 1024 + (u2 - 0xDC00)) :: ·)
        else none
      | [] => none
    else none

/-- str::to_ascii_lowercase.  Char.toLower in Lean core lowers exactly the
basic latin letters, matching Rust's ASCII-only lowering. -/
def to_ascii_lowercase (s : String) : String := String.mk (s.data.map Char.toLower)

/-- str::to_ascii_uppercase (ASCII-only, like Char.toUpper). -/
def to_ascii_uppercase (s : String) : String := String.mk (s.data.map Char.toUpper)

/-- trim_end_matches of the NUL character, on the decoded character list. -/
def trim_end_nulls (cs : List Char) : List Char :=
  (cs.reverse.dropWhile (· = '\x00')).reverse

/-! ## Association lists standing in for HashMap -/

def assocGet {α : Type} : List (String × α) → String → Option α
  | [], _ => none
  | (k2, v) :: rest, k => if k2 = k then some v else assocGet rest k

/-- HashMap::insert semantics: replace the binding of an existing key,
otherwise add a new one. -/
def assocInsert {α : Type} : List (String × α) → String → α → List (String × α)
  | [], k, v => [(k, v)]
  | (k2, v2) :: rest, k, v =>
    if k2 = k then (k, v) :: rest else (k2, v2) :: assocInsert rest k v

/-! ## src/pe.rs data model -/

def DOS_MAGIC : Nat := 0x5a4d

structure DOSHeader where
  magic : Nat
  lfanew : Nat
deriving Repr, DecidableEq

def DOSHeader.from_parser (c : Cursor) : Except String (DOSHeader × Cursor) := do
  let (magic, c) ← readU16 c
  if magic ≠ DOS_MAGIC then .error "Invalid DOS magic number"
  else do
    let c := c.setPos 0x3C
    let (lfanew, c) ← readU32 c
    .ok ({ magic := magic, lfanew := lfanew }, c)

structure COFFHeader where
  machine : Nat
  number_of_sections : Nat
  time_date_stamp : Nat
  pointer_to_symbol_table : Nat
  number_of_symbols : Nat
  size_of_optional_header : Nat
  characteristics : Nat
deriving Repr, DecidableEq

def COFFHeader.from_parser (c : Cursor) : Except String (COFFHeader × Cursor) := do
  let (machine, c) ← readU16 c
  let (number_of_sections, c) ← readU16 c
  let (time_date_stamp, c) ← readU32 c
  let (pointer_to_symbol_table, c) ← readU32 c
  let (number_of_symbols, c) ← readU32 c
  let (size_of_optional_header, c) ← readU16 c
  let (characteristics, c) ← readU16 c
  .ok ({ machine := machine, number_of_sections := number_of_sections,
         time_date_stamp := time_date_stamp,
         pointer_to_symbol_table := pointer_to_symbol_table,
         number_of_symbols := number_of_symbols,
         size_of_optional_header := size_of_optional_header,
         characteristics := characteristics }, c)

def NT_PE_SIGNATURE : Nat := 0x4550

structure NTHeader where
  signature : Nat
  coff_header : COFFHeader
deriving Repr, DecidableEq

def NTHeader.from_parser (c : Cursor) : Except String (NTHeader × Cursor) := do
  let (signature, c) ← readU32 c
  if signature ≠ NT_PE_SIGNATURE then .error "Invalid PE signature in NT Header"
  else do
    let (coff, c) ← COFFHeader.from_parser c
    .ok ({ signature := signature, coff_header := coff }, c)

structure ImageDataDirectory where
  virtual_address : Nat
  size : Nat
deriving Repr, DecidableEq

def ImageDataDirectory.from_parser (c : Cursor) : Except String (ImageDataDirectory × Cursor) := do
  let (va, c) ← readU32 c
  let (size, c) ← readU32 c
  .ok ({ virtual_address := va, size := size }, c)

def PE_FORMAT_32_MAGIC : Nat := 0x10b

def PE_FORMAT_64_MAGIC : Nat := 0x20b

structure OptionalHeader32 where
  magic : Nat
  major_linker_version : Nat
  minor_linker_version : Nat
  size_of_code : Nat
  size_of_initialized_data : Nat
  size_of_uninitialized_data : Nat
  address_of_entry_point : Nat
  base_of_code : Nat
  base_of_data : Nat
  image_base : Nat
  section_alignment : Nat
  file_alignement : Nat
  major_operating_system_version : Nat
  minor_operating_system_version : Nat
  major_image_version : Nat
  minor_image_version : Nat
  major_subsystem_version : Nat
  minor_subsystem_version : Nat
  win32_version_value : Nat
  size_of_image : Nat
  size_of_headers : Nat
  checksum : Nat
  subsystem : Nat
  dll_characteristics : Nat
  size_of_stack_reserve : Nat
  size_of_stack_commit : Nat
  size_of_heap_reserve : Nat
  size_of_heap_commit : Nat
  loader_flags : Nat
  number_of_rva_and_sizes : Nat
  export_table : ImageDataDirectory
  import_table : ImageDataDirectory
  resource_table : ImageDataDirectory
  exception_table : ImageDataDirectory
  certificate_table : ImageDataDirectory
  base_relocation_table : ImageDataDirectory
  debug : ImageDataDirectory
  architecture : ImageDataDirectory
  global_ptr : ImageDataDirectory
  tls_table : ImageDataDirectory
  load_config_table : ImageDataDirectory
  bound_import : ImageDataDirectory
  import_address_table : ImageDataDirectory
  delay_import_descriptor : ImageDataDirectory
  clr_runtime_header : ImageDataDirectory
  zero : ImageDataDirectory
deriving Repr, DecidableEq

def OptionalHeader32.from_parser (c : Cursor) : Except String (OptionalHeader32 × Cursor) := do
  let (magic, c) ← readU16 c
  let (major_linker_version, c) ← readU8 c
  let (minor_linker_version, c) ← readU8 c
  let (size_of_code, c) ← readU32 c
  let (size_of_initialized_data, c) ← readU32 c
  let (size_of_uninitialized_data, c) ← readU32 c
  let (address_of_entry_point, c) ← readU32 c
  let (base_of_code, c) ← readU32 c
  let (base_of_data, c) ← readU32 c
  let (image_base, c) ← readU32 c
  let (section_alignment, c) ← readU32 c
  let (file_alignement, c) ← readU32 c
  let (major_operating_system_version, c) ← readU16 c
  let (minor_operating_system_version, c) ← readU16 c
  let (major_image_version, c) ← readU16 c
  let (minor_image_version, c) ← readU16 c
  let (major_subsystem_version, c) ← readU16 c
  let (minor_subsystem_version, c) ← readU16 c
  let (win32_version_value, c) ← readU32 c
  let (size_of_image, c) ← readU32 c
  let (size_of_headers, c) ← readU32 c
  let (checksum, c) ← readU32 c
  let (subsystem, c) ← readU16 c
  let (dll_characteristics, c) ← readU16 c
  let (size_of_stack_reserve, c) ← readU32 c
  let (size_of_stack_commit, c) ← readU32 c
  let (size_of_heap_reserve, c) ← readU32 c
  let (size_of_heap_commit, c) ← readU32 c
  let (loader_flags, c) ← readU32 c
  let (number_of_rva_and_sizes, c) ← readU32 c
  let (export_table, c) ← ImageDataDirectory.from_parser c
  let (imp_table, c) ← ImageDataDirectory.from_parser c
  let (resource_table, c) ← ImageDataDirectory.from_parser c
  let (exception_table, c) ← ImageDataDirectory.from_parser c
  let (certificate_table, c) ← ImageDataDirectory.from_parser c
  let (base_relocation_table, c) ← ImageDataDirectory.from_parser c
  let (debug, c) ← ImageDataDirectory.from_parser c
  let (architecture, c) ← ImageDataDirectory.from_parser c
  let (global_ptr, c) ← ImageDataDirectory.from_parser c
  let (tls_table, c) ← ImageDataDirectory.from_parser c
  let (load_config_table, c) ← ImageDataDirectory.from_parser c
  let (bound_imp, c) ← ImageDataDirectory.from_parser c
  let (iat_table, c) ← ImageDataDirectory.from_parser c
  let (delay_import_descriptor, c) ← ImageDataDirectory.from_parser c
  let (clr_runtime_header, c) ← ImageDataDirectory.from_parser c
  let (zero, c) ← ImageDataDirectory.from_parser c
  .ok ({ magic := magic, major_linker_version := major_linker_version,
         minor_linker_version := minor_linker_version, size_of_code := size_of_code,
         size_of_initialized_data := size_of_initialized_data,
         size_of_uninitialized_data := size_of_uninitialized_data,
         address_of_entry_point := address_of_entry_point,
         base_of_code := base_of_code, base_of_data := base_of_data,
         image_base := image_base, section_alignment := section_alignment,
         file_alignement := file_alignement,
         major_operating_system_version := major_operating_system_version,
         minor_operating_system_version := minor_operating_system_version,
         major_image_version := major_image_version,
         minor_image_version := minor_image_version,
         major_subsystem_version := major_subsystem_version,
         minor_subsystem_version := minor_subsystem_version,
         win32_version_value := win32_version_value, size_of_image := size_of_image,
         size_of_headers := size_of_headers, checksum := checksum,
         subsystem := subsystem, dll_characteristics := dll_characteristics,
         size_of_stack_reserve := size_of_stack_reserve,
         size_of_stack_commit := size_of_stack_commit,
         size_of_heap_reserve := size_of_heap_reserve,
         size_of_heap_commit := size_of_heap_commit, loader_flags := loader_flags,
         number_of_rva_and_sizes := number_of_rva_and_sizes,
         export_table := export_table, import_table := imp_table,
         resource_table := resource_table, exception_table := exception_table,
         certificate_table := certificate_table,
         base_relocation_table := base_relocation_table, debug := debug,
         architecture := architecture, global_ptr := global_ptr,
         tls_table := tls_table, load_config_table := load_config_table,
         bound_import := bound_imp, import_address_table := iat_table,
         delay_import_descriptor := delay_import_descriptor,
         clr_runtime_header := clr_runtime_header, zero := zero }, c)

structure OptionalHeader64 where
  magic : Nat
  major_linker_version : Nat
  minor_linker_version : Nat
  size_of_code : Nat
  size_of_initialized_data : Nat
  size_of_uninitialized_data : Nat
  address_of_entry_point : Nat
  base_of_code : Nat
  image_base : Nat
  section_alignment : Nat
  file_alignement : Nat
  major_operating_system_version : Nat
  minor_operating_system_version : Nat
  major_image_version : Nat
  minor_image_version : Nat
  major_subsystem_version : Nat
  minor_subsystem_version : Nat
  win32_version_value : Nat
  size_of_image : Nat
  size_of_headers : Nat
  checksum : Nat
  subsystem : Nat
  dll_characteristics : Nat
  size_of_stack_reserve : Nat
  size_of_stack_commit : Nat
  size_of_heap_reserve : Nat
  size_of_heap_commit : Nat
  loader_flags : Nat
  number_of_rva_and_sizes : Nat
  export_table : ImageDataDirectory
  import_table : ImageDataDirectory
  resource_table : ImageDataDirectory
  exception_table : ImageDataDirectory
  certificate_table : ImageDataDirectory
  base_relocation_table : ImageDataDirectory
  debug : ImageDataDirectory
  architecture : ImageDataDirectory
  global_ptr : ImageDataDirectory
  tls_table : ImageDataDirectory
  load_config_table : ImageDataDirectory
  bound_import : ImageDataDirectory
  import_address_table : ImageDataDirectory
  delay_import_descriptor : ImageDataDirectory
  clr_runtime_header : ImageDataDirectory
  zero : ImageDataDirectory
deriving Repr, DecidableEq

def OptionalHeader64.from_parser (c : Cursor) : Except String (OptionalHeader64 × Cursor) := do
  let (magic, c) ← readU16 c
  let (major_linker_version, c) ← readU8 c
  let (minor_linker_version, c) ← readU8 c
  let (size_of_code, c) ← readU32 c
  let (size_of_initialized_data, c) ← readU32 c
  let (size_of_uninitialized_data, c) ← readU32 c
  let (address_of_entry_point, c) ← readU32 c
  let (base_of_code, c) ← readU32 c
  let (image_base, c) ← readU64 c
  let (section_alignment, c) ← readU32 c
  let (file_alignement, c) ← readU32 c
  let (major_operating_system_version, c) ← readU16 c
  let (minor_operating_system_version, c) ← readU16 c
  let (major_image_version, c) ← readU16 c
  let (minor_image_version, c) ← readU16 c
  let (major_subsystem_version, c) ← readU16 c
  let (minor_subsystem_version, c) ← readU16 c
  let (win32_version_value, c) ← readU32 c
  let (size_of_image, c) ← readU32 c
  let (size_of_headers, c) ← readU32 c
  let (checksum, c) ← readU32 c
  let (subsystem, c) ← readU16 c
  let (dll_characteristics, c) ← readU16 c
  let (size_of_stack_reserve, c) ← readU64 c
  let (size_of_stack_commit, c) ← readU64 c
  let (size_of_heap_reserve, c) ← readU64 c
  let (size_of_heap_commit, c) ← readU64 c
  let (loader_flags, c) ← readU32 c
  let (number_of_rva_and_sizes, c) ← readU32 c
  let (export_table, c) ← ImageDataDirectory.from_parser c
  let (imp_table, c) ← ImageDataDirectory.from_parser c
  let (resource_table, c) ← ImageDataDirectory.from_parser c
  let (exception_table, c) ← ImageDataDirectory.from_parser c
  let (certificate_table, c) ← ImageDataDirectory.from_parser c
  let (base_relocation_table, c) ← ImageDataDirectory.from_parser c
  let (debug, c) ← ImageDataDirectory.from_parser c
  let (architecture, c) ← ImageDataDirectory.from_parser c
  let (global_ptr, c) ← ImageDataDirectory.from_parser c
  let (tls_table, c) ← ImageDataDirectory.from_parser c
  let (load_config_table, c) ← ImageDataDirectory.from_parser c
  let (bound_imp, c) ← ImageDataDirectory.from_parser c
  let (iat_table, c) ← ImageDataDirectory.from_parser c
  let (delay_import_descriptor, c) ← ImageDataDirectory.from_parser c
  let (clr_runtime_header, c) ← ImageDataDirectory.from_parser c
  let (zero, c) ← ImageDataDirectory.from_parser c
  .ok ({ magic := magic, major_linker_version := major_linker_version,
         minor_linker_version := minor_linker_version, size_of_code := size_of_code,
         size_of_initialized_data := size_of_initialized_data,
         size_of_uninitialized_data := size_of_uninitialized_data,
         address_of_entry_point := address_of_entry_point,
         base_of_code := base_of_code,
         image_base := image_base, section_alignment := section_alignment,
         file_alignement := file_alignement,
         major_operating_system_version := major_operating_system_version,
         minor_operating_system_version := minor_operating_system_version,
         major_image_version := major_image_version,
         minor_image_version := minor_image_version,
         major_subsystem_version := major_subsystem_version,
         minor_subsystem_version := minor_subsystem_version,
         win32_version_value := win32_version_value, size_of_image := size_of_image,
         size_of_headers := size_of_headers, checksum := checksum,
         subsystem := subsystem, dll_characteristics := dll_characteristics,
         size_of_stack_reserve := size_of_stack_reserve,
         size_of_stack_commit := size_of_stack_commit,
         size_of_heap_reserve := size_of_heap_reserve,
         size_of_heap_commit := size_of_heap_commit, loader_flags := loader_flags,
         number_of_rva_and_sizes := number_of_rva_and_sizes,
         export_table := export_table, import_table := imp_table,
         resource_table := resource_table, exception_table := exception_table,
         certificate_table := certificate_table,
         base_relocation_table := base_relocation_table, debug := debug,
         architecture := architecture, global_ptr := global_ptr,
         tls_table := tls_table, load_config_table := load_config_table,
         bound_import := bound_imp, import_address_table := iat_table,
         delay_import_descriptor := delay_import_descriptor,
         clr_runtime_header := clr_runtime_header, zero := zero }, c)

/-! ## Sections -/

structure SectionHeader where
  name : String
  virtual_size : Nat
  virtual_address : Nat
  size_of_raw_data : Nat
  ptr_to_raw_data : Nat
  pointer_to_relocations : Nat
  pointer_to_line_numbers : Nat
  number_of_relocations : Nat
  number_of_line_numbers : Nat
  characteristics : Nat
deriving Repr, DecidableEq

/-- The 7 remaining name-byte reads after the first byte: a NUL byte is
skipped (continue), any other byte is appended. -/
def read_section_name_bytes : Nat → Cursor → List Nat → Except String (List Nat × Cursor)
  | 0, c, acc => .ok (acc, c)
  | n + 1, c, acc => do
    let (b, c) ← readU8 c
    if b = 0 then read_section_name_bytes n c acc
    else read_section_name_bytes n c (acc ++ [b])

def SectionHeader.from_parser (c : Cursor) : Except String (SectionHeader × Cursor) := do
  let (first_name_byte, c) ← readU8 c
  if first_name_byte = 0x2F then
    -- todo!() in the source: section names held in the string table are
    -- unimplemented and abort the process
    .error "panic: todo section header name finding in string table"
  else if first_name_byte = 0 then
    -- early return: every other field keeps its Default (zero) value
    .ok ({ name := "empty", virtual_size := 0, virtual_address := 0,
           size_of_raw_data := 0, ptr_to_raw_data := 0,
           pointer_to_relocations := 0, pointer_to_line_numbers := 0,
           number_of_relocations := 0, number_of_line_numbers := 0,
           characteristics := 0 }, c.setPos (c.pos + 39))
  else do
    let (name_buffer, c) ← read_section_name_bytes 7 c [first_name_byte]
    match utf8_decode name_buffer with
    | none => .error "panic: Invalid section name found in PE"
    | some name_chars => do
      let (virtual_size, c) ← readU32 c
      let (virtual_address, c) ← readU32 c
      let (size_of_raw_data, c) ← readU32 c
      let (ptr_to_raw_data, c) ← readU32 c
      let (pointer_to_relocations, c) ← readU32 c
      let (pointer_to_line_numbers, c) ← readU32 c
      let (number_of_relocations, c) ← readU16 c
      let (number_of_line_numbers, c) ← readU16 c
      let (characteristics, c) ← readU32 c
      .ok ({ name := String.mk name_chars, virtual_size := virtual_size,
             virtual_address := virtual_address,
             size_of_raw_data := size_of_raw_data,
             ptr_to_raw_data := ptr_to_raw_data,
             pointer_to_relocations := pointer_to_relocations,
             pointer_to_line_numbers := pointer_to_line_numbers,
             number_of_relocations := number_of_relocations,
             number_of_line_numbers := number_of_line_numbers,
             characteristics := characteristics }, c)

structure Section where
  header : SectionHeader
  raw_data : List Nat
deriving Repr, DecidableEq

/-! ## Import descriptors -/

structure ImageImportDescriptor where
  import_lookup_table_rva : Nat
  time_date_stamp : Nat
  forwarder_chain : Nat
  name_rva : Nat
  import_address_table_rva : Nat
deriving Repr, DecidableEq

def ImageImportDescriptor.from_parser (c : Cursor) :
    Except String (ImageImportDescriptor × Cursor) := do
  let (import_lookup_table_rva, c) ← readU32 c
  let (time_date_stamp, c) ← readU32 c
  let (forwarder_chain, c) ← readU32 c
  let (name_rva, c) ← readU32 c
  let (import_address_table_rva, c) ← readU32 c
  .ok ({ import_lookup_table_rva := import_lookup_table_rva,
         time_date_stamp := time_date_stamp, forwarder_chain := forwarder_chain,
         name_rva := name_rva,
         import_address_table_rva := import_address_table_rva }, c)

def ImageImportDescriptor.is_zeroed_out (d : ImageImportDescriptor) : Bool :=
  d.import_lookup_table_rva = 0 ∧ d.time_date_stamp = 0 ∧ d.forwarder_chain = 0
    ∧ d.name_rva = 0 ∧ d.import_address_table_rva = 0

/-! ## PE headers and the PE structure -/

structure PE32Header where
  dos : DOSHeader
  nt : NTHeader
  optional : OptionalHeader32
deriving Repr, DecidableEq

structure PE64Header where
  dos : DOSHeader
  nt : NTHeader
  optional : OptionalHeader64
deriving Repr, DecidableEq

inductive PEHeader where
  | PE32 : PE32Header → PEHeader
  | PE64 : PE64Header → PEHeader
deriving Repr, DecidableEq

structure PE where
  header : PEHeader
  sections : List (String × Section)
  import_descriptors : List ImageImportDescriptor
  dll_names : List String
  /-- Modelled from the spec: parse_apiset in src/apiset.rs reads the raw
  file bytes of the parsed image through a field named data that the PE
  struct in src/pe.rs does not declare (spec section 4.2: the source file
  is opened read-only and fully buffered).  The field holds the whole
  file buffer, so positioning it at a section's raw-data pointer reads
  that section's bytes. -/
  data : List Nat
deriving Repr, DecidableEq

def PE.is_32_bits (pe : PE) : Bool :=
  match pe.header with
  | .PE32 _ => true
  | .PE64 _ => false

def PE.get_size_of_optional_header (pe : PE) : Nat :=
  match pe.header with
  | .PE32 h => h.nt.coff_header.size_of_optional_header
  | .PE64 h => h.nt.coff_header.size_of_optional_header

def PE.get_number_of_sections (pe : PE) : Nat :=
  match pe.header with
  | .PE32 h => h.nt.coff_header.number_of_sections
  | .PE64 h => h.nt.coff_header.number_of_sections

def PE.get_import_table_idd (pe : PE) : ImageDataDirectory :=
  match pe.header with
  | .PE32 h => h.optional.import_table
  | .PE64 h => h.optional.import_table

/-- Loop body of PE::convert_rva_to_file_offset over the section map
values.  start + virtual_size is a u32 addition, wrapping modulo 2^32 in
release mode. -/
def convert_rva_aux (rva : Nat) : List (String × Section) → Option Nat
  | [] => none
  | (_, sec) :: rest =>
    let start := sec.header.virtual_address
    let stop := (start + sec.header.virtual_size) % 2 ^ 32
    if start ≤ rva ∧ rva < stop then
      some (sec.header.ptr_to_raw_data + (rva - start))
    else convert_rva_aux rva rest

def PE.convert_rva_to_file_offset (pe : PE) (rva : Nat) : Option Nat :=
  convert_rva_aux rva pe.sections

/-! ## parse_import_descriptors -/

/-- The descriptor loop: read descriptors until the zero sentinel, or
until a break once more than 256 descriptors have been accumulated.  The
expect on a failed read (a panic in the source) is an error result.
gas is a proof artifact kept equal to 257 - acc.length, the maximum
number of iterations the loop's own cap still permits; the gas-0 branch
is dead code at the call site (gas 257, acc empty) and returns what the
cap branch would. -/
def import_descriptor_loop : Nat → Cursor → List ImageImportDescriptor →
    Except String (List ImageImportDescriptor)
  | 0, _, acc => .ok acc
  | gas + 1, c, acc =>
    match ImageImportDescriptor.from_parser c with
    | .error _ => .error "panic: Cannot parse ImageImportDescriptor from the Import Table"
    | .ok (descriptor, c2) =>
      if descriptor.is_zeroed_out then .ok acc
      else
        if (acc ++ [descriptor]).length > 256 then .ok (acc ++ [descriptor])
        else import_descriptor_loop gas c2 (acc ++ [descriptor])

def parse_import_descriptors (pe : PE) (c : Cursor) :
    Except String (List ImageImportDescriptor) :=
  match pe.convert_rva_to_file_offset (pe.get_import_table_idd).virtual_address with
  | none => .error "Import Table RVA does not map to any section"
  | some file_offset => import_descriptor_loop 257 (c.setPos file_offset) []

/-! ## parse_dll_names -/

def parse_dll_names_aux (pe : PE) : List ImageImportDescriptor → Except String (List String)
  | [] => .ok []
  | d :: rest =>
    match pe.convert_rva_to_file_offset d.name_rva with
    | none => .error "Import Descriptor Name RVA does not map to any section"
    | some off =>
      match read_null_terminated (pe.data.drop off) with
      | none => .error "unexpected end of file"
      | some name_buffer =>
        match utf8_decode name_buffer with
        | none => .error "panic: Invalid name found in import names"
        | some name_chars => do
          let tail_names ← parse_dll_names_aux pe rest
          .ok (String.mk name_chars :: tail_names)

def parse_dll_names (pe : PE) : Except String (List String) :=
  parse_dll_names_aux pe pe.import_descriptors

/-! ## parse_pe -/

/-- u64 wrapping subtraction (release-mode u64 arithmetic in the
cursor-realignment step of parse_pe). -/
def wrap_sub64 (a b : Nat) : Nat := ((2 ^ 64 + a % 2 ^ 64) - b % 2 ^ 64) % 2 ^ 64

/-- The section-reading loop of parse_pe: parse a section header, read its
raw data from ptr_to_raw_data (io::Read::read returns the number of bytes
available, checked against size_of_raw_data), insert the section into the
name-keyed map, restore the cursor to just after the section header. -/
def parse_sections_loop : Nat → Cursor → List (String × Section) →
    Except String (List (String × Section) × Cursor)
  | 0, c, acc => .ok (acc, c)
  | n + 1, c, acc => do
    let (section_header, c2) ← SectionHeader.from_parser c
    let cursor_position_after_section_header := c2.pos
    let c3 := c2.setPos section_header.ptr_to_raw_data
    let section_raw_data := (c3.data.drop c3.pos).take section_header.size_of_raw_data
    if section_raw_data.length ≠ section_header.size_of_raw_data then
      .error "Could not read all raw data from section"
    else
      parse_sections_loop n (c3.setPos cursor_position_after_section_header)
        (assocInsert acc section_header.name
          { header := section_header, raw_data := section_raw_data })

def parse_pe_body (file_bytes : List Nat) : Except String PE := do
  let c : Cursor := ⟨file_bytes, 0⟩
  let (dos_header, c) ← DOSHeader.from_parser c
  let c := c.setPos dos_header.lfanew
  let (nt_header, c) ← NTHeader.from_parser c
  let (optional_magic, c) ← readU16 c
  let c := c.setPos (c.pos - 2)
  let start_of_optional_position := c.pos
  let (header, c) ←
    (if optional_magic = PE_FORMAT_32_MAGIC then do
      let (optional_header, c2) ← OptionalHeader32.from_parser c
      Except.ok (PEHeader.PE32 { dos := dos_header, nt := nt_header,
                                 optional := optional_header }, c2)
    else if optional_magic = PE_FORMAT_64_MAGIC then do
      let (optional_header, c2) ← OptionalHeader64.from_parser c
      Except.ok (PEHeader.PE64 { dos := dos_header, nt := nt_header,
                                 optional := optional_header }, c2)
    else Except.error "Invalid PE optional header magic")
  let pe0 : PE := { header := header, sections := [], import_descriptors := [],
                    dll_names := [], data := file_bytes }
  let end_of_optional_position := c.pos
  let optional_size := end_of_optional_position - start_of_optional_position
  let c := c.setPos ((c.pos + wrap_sub64 pe0.get_size_of_optional_header optional_size) % 2 ^ 64)
  let (sections, c) ← parse_sections_loop pe0.get_number_of_sections c []
  let pe1 : PE := { pe0 with sections := sections }
  let descriptors ← parse_import_descriptors pe1 c
  let pe2 : PE := { pe1 with import_descriptors := descriptors }
  let names ← parse_dll_names pe2
  .ok { pe2 with dll_names := names }

/-- str::ends_with, written as a character-list suffix test (String's own
endsWith is not kernel-reducible; for the valid UTF-8 strings involved the
two agree). -/
def ends_with (s suffix : String) : Bool := suffix.data.isSuffixOf s.data

/-- parse_pe over an abstract filesystem (path → optional file bytes).
The checks run in source order: existence, the .exe-extension policy
check, then the byte-level parse. -/
def parse_pe (file_path : String) (fs : String → Option (List Nat)) : Except String PE :=
  match fs file_path with
  | none => .error "File does not exist"
  | some file_bytes =>
    if ¬ (ends_with file_path ".exe") then .error "File is not an executable (.exe)"
    else parse_pe_body file_bytes

/-! ## src/apiset.rs -/

def APISetSchemaDLLPath : String := "C:\\Windows\\System32\\apisetschema.dll"

structure APISetNamespace where
  version : Nat
  size : Nat
  flags : Nat
  count : Nat
  entry_offset : Nat
  hash_offset : Nat
  hash_multiplier : Nat
deriving Repr, DecidableEq

def APISetNamespace.from_parser (c : Cursor) : Except String (APISetNamespace × Cursor) := do
  let (version, c) ← readU32 c
  let (size, c) ← readU32 c
  let (flags, c) ← readU32 c
  let (count, c) ← readU32 c
  let (entry_offset, c) ← readU32 c
  let (hash_offset, c) ← readU32 c
  let (hash_multiplier, c) ← readU32 c
  .ok ({ version := version, size := size, flags := flags, count := count,
         entry_offset := entry_offset, hash_offset := hash_offset,
         hash_multiplier := hash_multiplier }, c)

structure APISetNamespaceEntry where
  flags : Nat
  name_offset : Nat
  name_length : Nat
  hashed_length : Nat
  value_offset : Nat
  value_count : Nat
deriving Repr, DecidableEq

def APISetNamespaceEntry.from_parser (c : Cursor) :
    Except String (APISetNamespaceEntry × Cursor) := do
  let (flags, c) ← readU32 c
  let (name_offset, c) ← readU32 c
  let (name_length, c) ← readU32 c
  let (hashed_length, c) ← readU32 c
  let (value_offset, c) ← readU32 c
  let (value_count, c) ← readU32 c
  .ok ({ flags := flags, name_offset := name_offset, name_length := name_length,
         hashed_length := hashed_length, value_offset := value_offset,
         value_count := value_count }, c)

structure APISetValueEntry where
  flags : Nat
  name_offset : Nat
  name_length : Nat
  value_offset : Nat
  value_length : Nat
deriving Repr, DecidableEq

def APISetValueEntry.from_parser (c : Cursor) : Except String (APISetValueEntry × Cursor) := do
  let (flags, c) ← readU32 c
  let (name_offset, c) ← readU32 c
  let (name_length, c) ← readU32 c
  let (value_offset, c) ← readU32 c
  let (value_length, c) ← readU32 c
  .ok ({ flags := flags, name_offset := name_offset, name_length := name_length,
         value_offset := value_offset, value_length := value_length }, c)

structure APISet where
  mapping : List (String × String)
deriving Repr, DecidableEq

/-- APISet::map — a plain HashMap::get on the stored mapping, with no
normalization of the queried name. -/
def APISet.map (a : APISet) (dll_name : String) : Option String :=
  assocGet a.mapping dll_name

/-- read_exact of n bytes at the cursor position. -/
def read_exact (c : Cursor) (n : Nat) : Except String (List Nat) :=
  let buf := (c.data.drop c.pos).take n
  if buf.length = n then .ok buf else .error "unexpected end of file"

/-- The body of the for-loop of parse_apiset over the namespace entries
(asn.count iterations).  size_of::<APISetNamespaceEntry>() is 24 bytes. -/
def parse_apiset_loop (section_start : Nat) : Nat → Cursor → List (String × String) →
    Except String (List (String × String))
  | 0, _, acc => .ok acc
  | n + 1, c, acc => do
    let cursor_position := c.pos
    let (asne, c) ← APISetNamespaceEntry.from_parser c
    let c := c.setPos (section_start + asne.name_offset)
    let name_buffer ← read_exact c asne.name_length
    -- the align_to front/back emptiness check cannot fire on an aligned
    -- buffer (see utf16_units); from_utf16's expect is a panic on failure
    match utf16_decode (utf16_units name_buffer) with
    | none => .error "panic: Invalid utf-16 name"
    | some api_set_name => do
      let acc2 ←
        (if asne.value_count > 0 then do
          let c := c.setPos (section_start + asne.value_offset)
          let (asve, c) ← APISetValueEntry.from_parser c
          let c := c.setPos (section_start + asve.value_offset)
          let value_buffer ← read_exact c asve.value_length
          match utf16_decode (utf16_units value_buffer) with
          | none => .error "panic: Invalid utf-16 name"
          | some host_dll_name =>
            Except.ok (assocInsert acc
              (to_ascii_lowercase (String.mk (trim_end_nulls api_set_name)))
              (to_ascii_lowercase (String.mk (trim_end_nulls host_dll_name))))
        else Except.ok acc)
      parse_apiset_loop section_start n (c.setPos (cursor_position + 24)) acc2

def parse_apiset (apiset_dll : PE) : Except String APISet :=
  match assocGet apiset_dll.sections ".apiset" with
  | none => .error "panic: Cannot find .apiset section in apiset dll"
  | some apiset_section => do
    let c : Cursor := ⟨apiset_dll.data, 0⟩
    let section_start := apiset_section.header.ptr_to_raw_data
    let c := c.setPos section_start
    let (asn, c) ← APISetNamespace.from_parser c
    let c := c.setPos (section_start + asn.entry_offset)
    let mapping ← parse_apiset_loop section_start asn.count c []
    .ok { mapping := mapping }

def load_apisetschema_mapping (fs : String → Option (List Nat)) : Except String APISet := do
  let pe ← parse_pe APISetSchemaDLLPath fs
  parse_apiset pe

/-! ## src/search.rs -/

/-- Modelled from the spec: search.rs calls a predicate
apiset::is_dll_from_apiset_schema that is absent from src/apiset.rs
(only superseded iterations of the module survive in the source).  Spec
section 4.3 describes it as is_virtual_name, recognizing the
api-ms-win-*.dll-style virtual-library naming convention. -/
def is_dll_from_apiset_schema (name : String) : Bool :=
  "api-ms-win-".data.isPrefixOf name.data

namespace apiset

/-- Modelled from the spec: search.rs calls apiset::find_dll(name, schema),
absent from src/apiset.rs.  Spec section 4.4(a): look the (lowercased)
name up in the apiset mapping; APISet::map is that lookup. -/
def find_dll (name : String) (schema : APISet) : Option String :=
  schema.map name

end apiset

/-- The json value shapes produced by src/search.rs: a fully resolved
node carries a dependencies array; a node whose recursive resolution
failed carries a dependencies string; a library not found in the search
paths carries only name and path. -/
inductive DepNode where
  | node (name path : String) (dependencies : List DepNode) : DepNode
  | failed (name path : String) (dependencies : String) : DepNode
  | notFound (name path : String) : DepNode

/-- Split a character list at path separators (both kinds). -/
def path_components : List Char → List Char → List (List Char)
  | [], cur => [cur.reverse]
  | ch :: rest, cur =>
    if ch = '\\' ∨ ch = '/' then cur.reverse :: path_components rest []
    else path_components rest (ch :: cur)

/-- PathBuf::file_name().to_str().unwrap_or, simplified to the last
nonempty path component; the claims below never depend on the finer
PathBuf corner cases. -/
def path_file_name (p : String) : String :=
  match ((path_components p.data []).filter (fun c => c ≠ [])).getLast? with
  | some cs => String.mk cs
  | none => "<unknown>"

/-- The environment a resolution runs in: the I/O boundary of search.rs.
parse abstracts pe::parse_pe projected to the dll_names list (the only
field the resolver reads); find abstracts find_dll's directory walk over
the search paths (none models its Err result); schema is the injected
APISet mapping. -/
structure Env where
  parse : String → Except String (List String)
  find : String → Option String
  schema : APISet

/-- The name actually searched for an imported dll (the head of the
per-import body shared by both resolvers): lowercase the name; if it
matches the virtual-library convention and the apiset mapping has an
entry, substitute the host name, otherwise keep the lowercased name. -/
def actual_dll_name (schema : APISet) (dll_name : String) : String :=
  let lower := to_ascii_lowercase dll_name
  if is_dll_from_apiset_schema lower then
    match apiset.find_dll lower schema with
    | some name => name
    | none => lower
  else lower

/-- The for-loop of get_dll_dependencies_recursive over pe.dll_names.
resolveRec is the recursive resolver at the current fuel.  State threads
(cache, visited); the last component is the trace of paths passed to
env.parse, used to state how often a file is parsed.  The Option layer is
fuel exhaustion (never the program's own behavior). -/
def resolve_deps_loop (env : Env)
    (resolveRec : String → List (String × DepNode) → List String →
      Option (Except String DepNode × List (String × DepNode) × List String × List String)) :
    List String → List (String × DepNode) → List String →
      Option (List DepNode × List (String × DepNode) × List String × List String)
  | [], cache, visited => some ([], cache, visited, [])
  | dll_name :: rest, cache, visited =>
    let lower := to_ascii_lowercase dll_name
    match env.find (actual_dll_name env.schema dll_name) with
    | some resolved_path =>
      match resolveRec resolved_path cache visited with
      | none => none
      | some (res, cache2, visited2, trace1) =>
        let dep_object :=
          match res with
          | .ok deps => deps
          | .error e => DepNode.failed lower resolved_path
              ("Failed to resolve dependencies: " ++ e)
        match resolve_deps_loop env resolveRec rest cache2 visited2 with
        | none => none
        | some (deps, cache3, visited3, trace2) =>
          some (dep_object :: deps, cache3, visited3, trace1 ++ trace2)
    | none =>
      match resolve_deps_loop env resolveRec rest cache visited with
      | none => none
      | some (deps, cache3, visited3, trace2) =>
        some (DepNode.notFound lower "<unknown>" :: deps, cache3, visited3, trace2)

/-- get_dll_dependencies_recursive.  Returns (result, cache, visited,
trace of parsed paths); the outer Option is recursion fuel (the source
recurses without a bound; every theorem below exhibits sufficient fuel).
Cache hits are returned verbatim; a path already in the visited set is a
circular-dependency error; the visited entry is removed just before a
successful return, and the completed node is cached. -/
def get_dll_dependencies_recursive (env : Env) :
    Nat → String → List (String × DepNode) → List String →
      Option (Except String DepNode × List (String × DepNode) × List String × List String)
  | 0, _, _, _ => none
  | fuel + 1, pe_path, cache, visited =>
    match assocGet cache pe_path with
    | some cached => some (.ok cached, cache, visited, [])
    | none =>
      if pe_path ∈ visited then
        some (.error ("Circular dependency detected in dll: " ++ pe_path), cache, visited, [])
      else
        let visited1 := pe_path :: visited
        match env.parse pe_path with
        | .error err =>
          some (.error ("Failed to parse PE \"" ++ pe_path ++ "\" (" ++ err ++ ")"),
                cache, visited1, [pe_path])
        | .ok dll_names =>
          let pe_name := to_ascii_lowercase (path_file_name pe_path)
          match resolve_deps_loop env (get_dll_dependencies_recursive env fuel)
              dll_names cache visited1 with
          | none => none
          | some (dependencies, cache2, visited2, trace) =>
            let visited3 := visited2.erase pe_path
            let result := DepNode.node pe_name pe_path dependencies
            some (.ok result, assocInsert cache2 pe_path result, visited3,
                  pe_path :: trace)

/-- get_dll_dependencies (the non-recursive resolver). -/
def get_dll_dependencies (env : Env) (pe_path : String) : Except String DepNode :=
  match env.parse pe_path with
  | .error err => .error ("Failed to parse PE \"" ++ pe_path ++ "\" (" ++ err ++ ")")
  | .ok dll_names =>
    let pe_name := to_ascii_lowercase (path_file_name pe_path)
    let dependencies := dll_names.map (fun dll_name =>
      let lower := to_ascii_lowercase dll_name
      let resolved_path :=
        match is_dll_from_apiset_schema lower with
        | true =>
          (env.find ((apiset.find_dll lower env.schema).getD "<unknown>")).getD "<unknown>"
        | false => (env.find lower).getD "<unknown>"
      DepNode.notFound lower resolved_path)
    .ok (DepNode.node pe_name pe_path dependencies)

/-- resolve_dependencies: recursive mode starts from an empty cache and
an empty visited set. -/
def resolve_dependencies (env : Env) (fuel : Nat) (pe_path : String) (recurse : Bool) :
    Option (Except String DepNode) :=
  if recurse then
    (get_dll_dependencies_recursive env fuel pe_path [] []).map (fun r => r.1)
  else some (get_dll_dependencies env pe_path)

/-! ## Concrete fixtures used by the theorems below -/

def zeroIDD : ImageDataDirectory := { virtual_address := 0, size := 0 }

def zeroOptionalHeader32 : OptionalHeader32 :=
  { magic := 0x10b, major_linker_version := 0, minor_linker_version := 0,
    size_of_code := 0, size_of_initialized_data := 0,
    size_of_uninitialized_data := 0, address_of_entry_point := 0,
    base_of_code := 0, base_of_data := 0, image_base := 0,
    section_alignment := 0, file_alignement := 0,
    major_operating_system_version := 0, minor_operating_system_version := 0,
    major_image_version := 0, minor_image_version := 0,
    major_subsystem_version := 0, minor_subsystem_version := 0,
    win32_version_value := 0, size_of_image := 0, size_of_headers := 0,
    checksum := 0, subsystem := 0, dll_characteristics := 0,
    size_of_stack_reserve := 0, size_of_stack_commit := 0,
    size_of_heap_reserve := 0, size_of_heap_commit := 0, loader_flags := 0,
    number_of_rva_and_sizes := 16, export_table := zeroIDD,
    import_table := zeroIDD, resource_table := zeroIDD,
    exception_table := zeroIDD, certificate_table := zeroIDD,
    base_relocation_table := zeroIDD, debug := zeroIDD,
    architecture := zeroIDD, global_ptr := zeroIDD, tls_table := zeroIDD,
    load_config_table := zeroIDD, bound_import := zeroIDD,
    import_address_table := zeroIDD, delay_import_descriptor := zeroIDD,
    clr_runtime_header := zeroIDD, zero := zeroIDD }

def zeroPE32Header : PE32Header :=
  { dos := { magic := 0x5a4d, lfanew := 0x40 },
    nt := { signature := 0x4550,
            coff_header := { machine := 0x14c, number_of_sections := 1,
                             time_date_stamp := 0, pointer_to_symbol_table := 0,
                             number_of_symbols := 0,
                             size_of_optional_header := 224,
                             characteristics := 0 } },
    optional := zeroOptionalHeader32 }

def mkSectionHeader (name : String) (vs va srd prd : Nat) : SectionHeader :=
  { name := name, virtual_size := vs, virtual_address := va,
    size_of_raw_data := srd, ptr_to_raw_data := prd,
    pointer_to_relocations := 0, pointer_to_line_numbers := 0,
    number_of_relocations := 0, number_of_line_numbers := 0,
    characteristics := 0 }

/-- A PE whose single section has virtual_address + virtual_size past the
32-bit range (4294967292 + 8 wraps to 4). -/
def pe3C : PE :=
  { header := .PE32 zeroPE32Header,
    sections := [(".text", { header := mkSectionHeader ".text" 8 4294967292 0 16,
                             raw_data := [] })],
    import_descriptors := [], dll_names := [], data := [] }

/-- A PE with one well-bounded section: rva 4096..4351 maps to offset 512. -/
def pe3W : PE :=
  { header := .PE32 zeroPE32Header,
    sections := [(".text", { header := mkSectionHeader ".text" 256 4096 0 512,
                             raw_data := [] })],
    import_descriptors := [], dll_names := [], data := [] }

def zero_descriptor : ImageImportDescriptor :=
  { import_lookup_table_rva := 0, time_date_stamp := 0, forwarder_chain := 0,
    name_rva := 0, import_address_table_rva := 0 }

def sample_descriptor : ImageImportDescriptor :=
  { import_lookup_table_rva := 1, time_date_stamp := 0, forwarder_chain := 0,
    name_rva := 0, import_address_table_rva := 0 }

def desc_bounded (d : ImageImportDescriptor) : Prop :=
  d.import_lookup_table_rva < 2 ^ 32 ∧ d.time_date_stamp < 2 ^ 32 ∧
    d.forwarder_chain < 2 ^ 32 ∧ d.name_rva < 2 ^ 32 ∧
    d.import_address_table_rva < 2 ^ 32

def encodeU16 (n : Nat) : List Nat := [n % 256, n / 256 % 256]

def encodeU32 (n : Nat) : List Nat :=
  [n % 256, n / 256 % 256, n / 65536 % 256, n / 16777216 % 256]

def encodeDesc (d : ImageImportDescriptor) : List Nat :=
  encodeU32 d.import_lookup_table_rva ++ encodeU32 d.time_date_stamp ++
    encodeU32 d.forwarder_chain ++ encodeU32 d.name_rva ++
    encodeU32 d.import_address_table_rva

def encodeDescList (ds : List ImageImportDescriptor) : List Nat :=
  ds.flatMap encodeDesc

/-- A PE whose import table RVA (0, from the zeroed data directory)
falls at file offset 0 of a one-byte section. -/
def pe4C : PE :=
  { header := .PE32 zeroPE32Header,
    sections := [("x", { header := mkSectionHeader "x" 1 0 0 0, raw_data := [] })],
    import_descriptors := [], dll_names := [], data := [] }

def import_buf_big : List Nat :=
  encodeDescList (List.replicate 257 sample_descriptor) ++ encodeDesc zero_descriptor

def import_buf_small : List Nat :=
  encodeDesc sample_descriptor ++ encodeDesc zero_descriptor

def sect_name_text : List Nat := [0x2E, 0x74, 0x65, 0x78, 0x74, 0, 0, 0]

/-- A complete 32-bit PE image: 3 section headers declared, two of them
named .text (with distinct virtual ranges), the third with a NUL first
name byte; the import directory (RVA 0x2000) lands in the second .text
section and holds just the zero sentinel. -/
def image9 : List Nat :=
  [0x4D, 0x5A] ++ List.replicate 58 0 ++ encodeU32 0x40 ++
  encodeU32 0x4550 ++
  (encodeU16 0x14C ++ encodeU16 3 ++ List.replicate 12 0 ++ encodeU16 224 ++
    encodeU16 0) ++
  (encodeU16 0x10B ++ List.replicate 94 0 ++ List.replicate 8 0 ++
    encodeU32 0x2000 ++ encodeU32 0x20 ++ List.replicate 112 0) ++
  (sect_name_text ++ encodeU32 0x100 ++ encodeU32 0x1000 ++ encodeU32 0 ++
    encodeU32 0 ++ List.replicate 16 0) ++
  (sect_name_text ++ encodeU32 0x100 ++ encodeU32 0x2000 ++ encodeU32 0x20 ++
    encodeU32 0x1B0 ++ List.replicate 16 0) ++
  List.replicate 40 0 ++
  List.replicate 32 0

def fs9 : String → Option (List Nat) := fun p =>
  if p = "sample.exe" then some image9 else none

def utf16_bytes (s : String) : List Nat :=
  s.data.flatMap (fun ch => [ch.toNat % 256, ch.toNat / 256 % 256])

/-- The raw bytes of a minimal .apiset section: a namespace with one
entry mapping api-ms-a.dll (UTF-16 at offset 52) to host.dll (value
entry at offset 76, UTF-16 at offset 96). -/
def apiset_blob : List Nat :=
  (encodeU32 6 ++ encodeU32 112 ++ encodeU32 0 ++ encodeU32 1 ++
    encodeU32 28 ++ encodeU32 0 ++ encodeU32 0) ++
  (encodeU32 0 ++ encodeU32 52 ++ encodeU32 24 ++ encodeU32 0 ++
    encodeU32 76 ++ encodeU32 1) ++
  utf16_bytes "api-ms-a.dll" ++
  (encodeU32 0 ++ encodeU32 0 ++ encodeU32 0 ++ encodeU32 96 ++
    encodeU32 16) ++
  utf16_bytes "host.dll"

def pe8 : PE :=
  { header := .PE32 zeroPE32Header,
    sections := [(".apiset", { header := mkSectionHeader ".apiset" 112 0 112 0,
                               raw_data := apiset_blob })],
    import_descriptors := [], dll_names := [], data := apiset_blob }

def apiset8 : APISet := { mapping := [("api-ms-a.dll", "host.dll")] }

def fs_any : String → Option (List Nat) := fun _ => some []

def env2W : Env :=
  { parse := fun p =>
      if p = "C:\\a\\a.exe" then .ok ["b.dll"]
      else if p = "C:\\b\\b.exe" then .ok ["a.dll"]
      else .error "nope",
    find := fun n =>
      if n = "b.dll" then some "C:\\b\\b.exe"
      else if n = "a.dll" then some "C:\\a\\a.exe"
      else none,
    schema := { mapping := [] } }

def env5C : Env :=
  { parse := fun _ => .error "boom", find := fun _ => none,
    schema := { mapping := [] } }

def env5W : Env :=
  { parse := fun _ => .ok [], find := fun _ => none,
    schema := { mapping := [] } }

def env6C : Env :=
  { parse := fun p =>
      if p = "C:\\r\\root.exe" then .ok ["API-MS-WIN-FOO-L1-1-0.DLL"]
      else if p = "C:\\x\\api-ms-win-foo-l1-1-0.dll" then .ok []
      else .error "nope",
    find := fun n =>
      if n = "api-ms-win-foo-l1-1-0.dll" then
        some "C:\\x\\api-ms-win-foo-l1-1-0.dll"
      else none,
    schema := { mapping := [] } }

def env6W : Env :=
  { parse := fun p =>
      if p = "C:\\r\\root.exe" then .ok ["api-ms-win-x-l1-1-0.dll", "b.dll"]
      else if p = "C:\\s\\b.dll" then .ok []
      else .error "nope",
    find := fun n => if n = "b.dll" then some "C:\\s\\b.dll" else none,
    schema := { mapping := [] } }

def env7W : Env :=
  { parse := fun p =>
      if p = "C:\\t\\root.exe" then .ok ["a.dll", "c.dll"]
      else if p = "C:\\t\\a.dll" then .ok ["b.dll"]
      else if p = "C:\\t\\c.dll" then .ok ["b.dll"]
      else if p = "C:\\t\\b.dll" then .ok []
      else .error "nope",
    find := fun n =>
      if n = "a.dll" then some "C:\\t\\a.dll"
      else if n = "b.dll" then some "C:\\t\\b.dll"
      else if n = "c.dll" then some "C:\\t\\c.dll"
      else none,
    schema := { mapping := [] } }

/-! ## Helper lemmas -/

theorem char_toLower_toUpper (c : Char) : (c.toUpper).toLower = c.toLower := by
  unfold Char.toUpper Char.toLower
  by_cases h : c.toNat ≥ 97 ∧ c.toNat ≤ 122
  · rw [if_pos h]
    have ht : (Char.ofNat (c.toNat - 32)).toNat = c.toNat - 32 := by
      unfold Char.ofNat
      rw [dif_pos (Or.inl (by omega : c.toNat - 32 < 55296))]
      rfl
    rw [ht, if_pos (by omega : c.toNat - 32 ≥ 65 ∧ c.toNat - 32 ≤ 90),
        if_neg (by omega : ¬(c.toNat ≥ 65 ∧ c.toNat ≤ 90))]
    have h2 : c.toNat - 32 + 32 = c.toNat := by omega
    rw [h2, Char.ofNat_toNat]
  · rw [if_neg h]

theorem lowercase_of_uppercase (s : String) :
    to_ascii_lowercase (to_ascii_uppercase s) = to_ascii_lowercase s := by
  unfold to_ascii_lowercase to_ascii_uppercase
  simp only [List.map_map]
  congr 1
  exact List.map_congr_left (fun c _ => char_toLower_toUpper c)

theorem section_test_iff (va vs r : Nat) (h1 : va < 2 ^ 32) (h2 : vs < 2 ^ 32) :
    (va ≤ r ∧ r < (va + vs) % 2 ^ 32) ↔
      (va ≤ r ∧ r < va + vs ∧ va + vs < 2 ^ 32) := by
  have h32 : (2 : Nat) ^ 32 = 4294967296 := by norm_num
  rw [h32] at h1 h2 ⊢
  omega

theorem convert_rva_aux_some (r : Nat) (s : Section) :
    ∀ (l : List (String × Section)),
      (∀ e ∈ l, e.2.header.virtual_address < 2 ^ 32 ∧
        e.2.header.virtual_size < 2 ^ 32) →
      (∃ nm, (nm, s) ∈ l) →
      s.header.virtual_address ≤ r →
      r < s.header.virtual_address + s.header.virtual_size →
      s.header.virtual_address + s.header.virtual_size < 2 ^ 32 →
      (∀ e ∈ l, e.2.header.virtual_address ≤ r ∧
          r < e.2.header.virtual_address + e.2.header.virtual_size → e.2 = s) →
      convert_rva_aux r l =
        some (s.header.ptr_to_raw_data + (r - s.header.virtual_address))
  | [] => by
    intro _ hmem _ _ _ _
    obtain ⟨nm, hnm⟩ := hmem
    exact absurd hnm (List.not_mem_nil _)
  | (n0, s0) :: tl => by
    intro hbnd hmem hlo hhi hnof huniq
    have hb0 := hbnd (n0, s0) (List.mem_cons_self _ _)
    simp only [convert_rva_aux]
    by_cases htest : s0.header.virtual_address ≤ r ∧
        r < (s0.header.virtual_address + s0.header.virtual_size) % 2 ^ 32
    · rw [if_pos htest]
      have hmath := (section_test_iff _ _ r hb0.1 hb0.2).mp htest
      have heq : s0 = s := huniq (n0, s0) (List.mem_cons_self _ _) ⟨hmath.1, hmath.2.1⟩
      rw [heq]
    · rw [if_neg htest]
      obtain ⟨nm, hnm⟩ := hmem
      rcases List.mem_cons.mp hnm with hhead | htl
      · exfalso
        cases hhead
        exact htest ((section_test_iff _ _ r hb0.1 hb0.2).mpr ⟨hlo, hhi, hnof⟩)
      · exact convert_rva_aux_some r s tl
          (fun e he => hbnd e (List.mem_cons_of_mem _ he))
          ⟨nm, htl⟩ hlo hhi hnof
          (fun e he => huniq e (List.mem_cons_of_mem _ he))

theorem convert_rva_aux_none_of_test_false (r : Nat) :
    ∀ (l : List (String × Section)),
      (∀ e ∈ l, ¬(e.2.header.virtual_address ≤ r ∧
        r < (e.2.header.virtual_address + e.2.header.virtual_size) % 2 ^ 32)) →
      convert_rva_aux r l = none
  | [] => by intro _; rfl
  | (n0, s0) :: tl => by
    intro hout
    simp only [convert_rva_aux]
    rw [if_neg (hout (n0, s0) (List.mem_cons_self _ _))]
    exact convert_rva_aux_none_of_test_false r tl
      (fun e he => hout e (List.mem_cons_of_mem _ he))

theorem convert_rva_aux_none (r : Nat) :
    ∀ (l : List (String × Section)),
      (∀ e ∈ l, e.2.header.virtual_address < 2 ^ 32 ∧
        e.2.header.virtual_size < 2 ^ 32) →
      (∀ e ∈ l, ¬(e.2.header.virtual_address ≤ r ∧
        r < e.2.header.virtual_address + e.2.header.virtual_size)) →
      convert_rva_aux r l = none
  | [] => by intro _ _; rfl
  | (n0, s0) :: tl => by
    intro hbnd hout
    have hb0 := hbnd (n0, s0) (List.mem_cons_self _ _)
    have ho0 := hout (n0, s0) (List.mem_cons_self _ _)
    simp only [convert_rva_aux]
    rw [if_neg (fun htest =>
      ho0 (let hm := (section_test_iff _ _ r hb0.1 hb0.2).mp htest; ⟨hm.1, hm.2.1⟩))]
    exact convert_rva_aux_none r tl
      (fun e he => hbnd e (List.mem_cons_of_mem _ he))
      (fun e he => hout e (List.mem_cons_of_mem _ he))

/-! ## Claim C1 -/

/-- C1: the claim says load_apisetschema_mapping returns Ok whenever the
file at the fixed schema path exists and is a well-formed PE image with a
.apiset section.  In fact it can never return Ok: the fixed schema path
ends in .dll, and parse_pe's executable-extension check (which runs
before any byte of the file is examined) rejects every path that does
not end in .exe.  For every filesystem in which the schema file exists,
whatever its content, loading fails with the extension error. -/
theorem fdw_C1_load_apisetschema_always_fails (fs : String → Option (List Nat))
    (bytes : List Nat) (h : fs APISetSchemaDLLPath = some bytes) :
    load_apisetschema_mapping fs = .error "File is not an executable (.exe)" := by
  have hext : ends_with APISetSchemaDLLPath ".exe" = false := by decide
  simp [load_apisetschema_mapping, parse_pe, h, hext]
  rfl

/-- C1 witness: a filesystem where the schema file exists. -/
theorem fdw_C1_witness :
    fs_any APISetSchemaDLLPath = some [] ∧
    load_apisetschema_mapping fs_any = .error "File is not an executable (.exe)" :=
  ⟨rfl, fdw_C1_load_apisetschema_always_fails fs_any [] rfl⟩

/-! ## Claim C3 -/

/-- C3 counterexample: in pe3C the RVA 4294967294 lies inside the virtual
range (virtual_address ≤ r < virtual_address + virtual_size) of the one
and only section, yet convert_rva_to_file_offset returns none rather
than ptr_to_raw_data + (r - virtual_address), because the 32-bit sum
virtual_address + virtual_size wraps to 4. -/
theorem fdw_C3_counterexample :
    (∀ e ∈ pe3C.sections, e.2.header.virtual_address ≤ 4294967294 ∧
      4294967294 < e.2.header.virtual_address + e.2.header.virtual_size) ∧
    pe3C.sections.length = 1 ∧
    pe3C.convert_rva_to_file_offset 4294967294 = none := by
  refine ⟨by decide, rfl, by decide⟩

/-- C3 (amended): for u32-bounded section fields, if r lies inside
exactly one section's virtual range and that section's
virtual_address + virtual_size does not overflow the 32-bit range, the
translation returns exactly ptr_to_raw_data + (r - virtual_address); and
for every r outside every section's virtual range it returns none. -/
theorem fdw_C3_amended (pe : PE) (r : Nat)
    (hbnd : ∀ e ∈ pe.sections, e.2.header.virtual_address < 2 ^ 32 ∧
      e.2.header.virtual_size < 2 ^ 32) :
    (∀ (nm : String) (s : Section), (nm, s) ∈ pe.sections →
      s.header.virtual_address ≤ r →
      r < s.header.virtual_address + s.header.virtual_size →
      s.header.virtual_address + s.header.virtual_size < 2 ^ 32 →
      (∀ e ∈ pe.sections, e.2.header.virtual_address ≤ r ∧
          r < e.2.header.virtual_address + e.2.header.virtual_size → e.2 = s) →
      pe.convert_rva_to_file_offset r =
        some (s.header.ptr_to_raw_data + (r - s.header.virtual_address))) ∧
    ((∀ e ∈ pe.sections, ¬(e.2.header.virtual_address ≤ r ∧
        r < e.2.header.virtual_address + e.2.header.virtual_size)) →
      pe.convert_rva_to_file_offset r = none) := by
  constructor
  · intro nm s hmem hlo hhi hnof huniq
    exact convert_rva_aux_some r s pe.sections hbnd ⟨nm, hmem⟩ hlo hhi hnof huniq
  · intro hout
    exact convert_rva_aux_none r pe.sections hbnd hout

/-- C3 witness: pe3W has one section [4096, 4352) at raw offset 512. -/
theorem fdw_C3_witness :
    (∀ e ∈ pe3W.sections, e.2.header.virtual_address < 2 ^ 32 ∧
      e.2.header.virtual_size < 2 ^ 32) ∧
    ((∀ (nm : String) (s : Section), (nm, s) ∈ pe3W.sections →
      s.header.virtual_address ≤ 4100 →
      4100 < s.header.virtual_address + s.header.virtual_size →
      s.header.virtual_address + s.header.virtual_size < 2 ^ 32 →
      (∀ e ∈ pe3W.sections, e.2.header.virtual_address ≤ 4100 ∧
          4100 < e.2.header.virtual_address + e.2.header.virtual_size → e.2 = s) →
      pe3W.convert_rva_to_file_offset 4100 =
        some (s.header.ptr_to_raw_data + (4100 - s.header.virtual_address))) ∧
    ((∀ e ∈ pe3W.sections, ¬(e.2.header.virtual_address ≤ 4100 ∧
        4100 < e.2.header.virtual_address + e.2.header.virtual_size)) →
      pe3W.convert_rva_to_file_offset 4100 = none)) :=
  ⟨by decide, fdw_C3_amended pe3W 4100 (by decide)⟩

/-! ## Claim C10 -/

/-- C10: the section range end is virtual_address + virtual_size in
32-bit wrap-around arithmetic; when the true sum reaches past the 32-bit
range, the wrapped end is at most virtual_address, so every RVA at or
above virtual_address fails the per-section containment test, and on a
PE all of whose sections are such overflowing sections (with r at or
above each virtual_address) the translation returns none. -/
theorem fdw_C10_overflow_excludes_section :
    (∀ (h : SectionHeader) (r : Nat), h.virtual_address < 2 ^ 32 →
      h.virtual_size < 2 ^ 32 →
      2 ^ 32 ≤ h.virtual_address + h.virtual_size →
      h.virtual_address ≤ r →
      ¬(h.virtual_address ≤ r ∧
        r < (h.virtual_address + h.virtual_size) % 2 ^ 32)) ∧
    (∀ (pe : PE) (r : Nat),
      (∀ e ∈ pe.sections, e.2.header.virtual_address < 2 ^ 32 ∧
        e.2.header.virtual_size < 2 ^ 32 ∧
        2 ^ 32 ≤ e.2.header.virtual_address + e.2.header.virtual_size ∧
        e.2.header.virtual_address ≤ r) →
      pe.convert_rva_to_file_offset r = none) := by
  have h32 : (2 : Nat) ^ 32 = 4294967296 := by norm_num
  constructor
  · intro h r hva hvs hsum hle
    rw [h32] at hva hvs hsum ⊢
    omega
  · intro pe r hall
    apply convert_rva_aux_none_of_test_false r pe.sections
    intro e he
    have h4 := hall e he
    rw [h32] at h4
    rw [h32]
    omega

/-- C10 witness: pe3C's single section has 4294967292 + 8 past 2^32;
the RVA 4294967293 (at or above virtual_address) translates to none. -/
theorem fdw_C10_witness :
    (∀ e ∈ pe3C.sections, e.2.header.virtual_address < 2 ^ 32 ∧
      e.2.header.virtual_size < 2 ^ 32 ∧
      2 ^ 32 ≤ e.2.header.virtual_address + e.2.header.virtual_size ∧
      e.2.header.virtual_address ≤ 4294967293) ∧
    pe3C.convert_rva_to_file_offset 4294967293 = none :=
  ⟨by decide,
   fdw_C10_overflow_excludes_section.2 pe3C 4294967293 (by decide)⟩

/-! ## Claim C9 -/

/-- C9: on the concrete image image9 (three declared section headers:
two named .text with disjoint virtual ranges, one with a NUL first name
byte), parse_pe succeeds and (a) stores only 2 sections though
number_of_sections is 3, (b) keeps under the key .text the later
section (virtual_address 8192), the earlier one having been replaced,
(c) stores the NUL-named section under the key empty, and (d) the RVA
4224, which lies inside the replaced first .text section's virtual range
[4096, 4352), translates to no file offset. -/
theorem fdw_C9_duplicate_names_replace :
    (((parse_pe "sample.exe" fs9).map (fun pe =>
      (pe.sections.length, pe.get_number_of_sections,
       pe.convert_rva_to_file_offset 4224,
       (assocGet pe.sections "empty").isSome,
       (assocGet pe.sections ".text").map (fun s => s.header.virtual_address)))) =
    .ok (2, 3, none, true, some 8192)) ∧ 2 < 3 :=
  ⟨by rfl, by norm_num⟩

/-! ## Claim C8 -/

/-- C8 counterexample: parse_apiset builds, from the concrete schema
image pe8, the mapping with the single (lowercase) entry
api-ms-a.dll → host.dll.  Looking up the uppercased form of the name
api-ms-a.dll returns none while looking up the lowercased form returns
host.dll: APISet::map is a plain exact-match get with no case
normalization, so lookup(upper(name)) differs from lookup(lower(name)). -/
theorem fdw_C8_counterexample :
    parse_apiset pe8 = .ok apiset8 ∧
    apiset8.map (to_ascii_uppercase "api-ms-a.dll") = none ∧
    apiset8.map (to_ascii_lowercase "api-ms-a.dll") = some "host.dll" ∧
    apiset8.map (to_ascii_uppercase "api-ms-a.dll") ≠
      apiset8.map (to_ascii_lowercase "api-ms-a.dll") :=
  ⟨by rfl, by rfl, by rfl, by decide⟩

/-- C8 (amended): the map itself is case-sensitive; case-insensitivity
holds only through the callers' lowercase normalization: for every
API-Set mapping and every name, looking up the lowercased form of the
uppercased name returns the same result as looking up the lowercased
form of the name. -/
theorem fdw_C8_amended (a : APISet) (name : String) :
    a.map (to_ascii_lowercase (to_ascii_uppercase name)) =
      a.map (to_ascii_lowercase name) := by
  rw [lowercase_of_uppercase]

/-! ## Claim C4 -/

theorem drop_cons_next {data : List Nat} {pos b : Nat} {rest : List Nat}
    (h : data.drop pos = b :: rest) : data.drop (pos + 1) = rest := by
  have h2 : data.drop (pos + 1) = (data.drop pos).drop 1 := by rw [List.drop_drop]
  rw [h2, h]
  rfl

theorem readU32_drop {data : List Nat} {pos n : Nat} {rest : List Nat}
    (h : data.drop pos = encodeU32 n ++ rest) (hn : n < 2 ^ 32) :
    readU32 ⟨data, pos⟩ = .ok (n, ⟨data, pos + 4⟩) ∧ data.drop (pos + 4) = rest := by
  have h0 : data.drop pos =
      n % 256 :: (n / 256 % 256 :: (n / 65536 % 256 :: (n / 16777216 % 256 :: rest))) := by
    simpa [encodeU32] using h
  have d1 := drop_cons_next h0
  have d2 := drop_cons_next d1
  have d3 := drop_cons_next d2
  have d4 := drop_cons_next d3
  have g0 : data[pos]? = some (n % 256) := by simpa using congrArg List.head? h0
  have g1 : data[pos + 1]? = some (n / 256 % 256) := by
    simpa using congrArg List.head? d1
  have g2 : data[pos + 1 + 1]? = some (n / 65536 % 256) := by
    simpa using congrArg List.head? d2
  have g3 : data[pos + 1 + 1 + 1]? = some (n / 16777216 % 256) := by
    simpa using congrArg List.head? d3
  have hval : n % 256 + 256 * (n / 256 % 256) + 65536 * (n / 65536 % 256)
      + 16777216 * (n / 16777216 % 256) = n := by
    have h32 : (2 : Nat) ^ 32 = 4294967296 := by norm_num
    rw [h32] at hn
    omega
  have hpos : pos + 1 + 1 + 1 + 1 = pos + 4 := by omega
  constructor
  · simp [readU32, readU8, Bind.bind, Except.bind, g0, g1, g2, g3, hval, hpos]
  · rw [← hpos]
    exact d4

theorem desc_from_parser_drop {data : List Nat} {pos : Nat}
    {d : ImageImportDescriptor} {rest : List Nat}
    (h : data.drop pos = encodeDesc d ++ rest) (hb : desc_bounded d) :
    ImageImportDescriptor.from_parser ⟨data, pos⟩ = .ok (d, ⟨data, pos + 20⟩) ∧
      data.drop (pos + 20) = rest := by
  obtain ⟨hb1, hb2, hb3, hb4, hb5⟩ := hb
  rw [encodeDesc, List.append_assoc, List.append_assoc, List.append_assoc,
    List.append_assoc] at h
  obtain ⟨r1, e1⟩ := readU32_drop h hb1
  obtain ⟨r2, e2⟩ := readU32_drop e1 hb2
  obtain ⟨r3, e3⟩ := readU32_drop e2 hb3
  obtain ⟨r4, e4⟩ := readU32_drop e3 hb4
  obtain ⟨r5, e5⟩ := readU32_drop e4 hb5
  have hpos : pos + 4 + 4 + 4 + 4 + 4 = pos + 20 := by omega
  constructor
  · simp [ImageImportDescriptor.from_parser, Bind.bind, Except.bind,
      r1, r2, r3, r4, r5, hpos]
  · rw [← hpos]
    exact e5

theorem import_descriptor_loop_parses (ds : List ImageImportDescriptor) :
    ∀ (gas pos : Nat) (data : List Nat) (acc : List ImageImportDescriptor)
      (rest : List Nat),
      (∀ d ∈ ds, desc_bounded d ∧ ¬ d.is_zeroed_out = true) →
      acc.length + ds.length ≤ 257 →
      gas = 257 - acc.length →
      data.drop pos = encodeDescList ds ++ (encodeDesc zero_descriptor ++ rest) →
      import_descriptor_loop gas ⟨data, pos⟩ acc = .ok (acc ++ ds) := by
  induction ds with
  | nil =>
    intro gas pos data acc rest _ hlen hgas hbuf
    rw [encodeDescList] at hbuf
    simp only [List.flatMap_nil, List.nil_append] at hbuf
    match gas, hgas with
    | 0, _ => simp [import_descriptor_loop]
    | g + 1, _ =>
      have hz : desc_bounded zero_descriptor := by
        refine ⟨?_, ?_, ?_, ?_, ?_⟩ <;> norm_num [zero_descriptor]
      obtain ⟨r0, _⟩ := desc_from_parser_drop hbuf hz
      simp [import_descriptor_loop, r0, zero_descriptor,
        ImageImportDescriptor.is_zeroed_out]
  | cons d ds2 ih =>
    intro gas pos data acc rest hds hlen hgas hbuf
    have hlacc : acc.length ≤ 256 := by
      have := hlen
      simp [List.length_cons] at this
      omega
    match gas, hgas with
    | 0, hgas0 => omega
    | g + 1, hgasS =>
      have hd := hds d (List.mem_cons_self _ _)
      rw [encodeDescList] at hbuf
      simp only [List.flatMap_cons, List.append_assoc] at hbuf
      obtain ⟨r0, e0⟩ := desc_from_parser_drop hbuf hd.1
      have hnz : d.is_zeroed_out = false := by
        cases hzo : d.is_zeroed_out
        · rfl
        · exact absurd hzo hd.2
      by_cases hcap : (acc ++ [d]).length > 256
      · have hlen2 : acc.length + (d :: ds2).length ≤ 257 := hlen
        have hds2nil : ds2 = [] := by
          have hl : (acc ++ [d]).length = acc.length + 1 := by simp
          simp [List.length_cons] at hlen2
          rw [hl] at hcap
          exact List.length_eq_zero.mp (by omega)
        subst hds2nil
        simp only [import_descriptor_loop, r0]
        rw [hnz]
        simp only [Bool.false_eq_true, if_false]
        rw [if_pos hcap]
      · have hrec := ih g (pos + 20) data (acc ++ [d]) rest
          (fun e he => hds e (List.mem_cons_of_mem _ he))
          (by simp at hlen ⊢; omega)
          (by simp; omega)
          (by rw [e0]; rw [encodeDescList])
        simp only [import_descriptor_loop, r0]
        rw [hnz]
        simp only [Bool.false_eq_true, if_false]
        rw [if_neg hcap, hrec]
        simp

theorem import_descriptor_loop_cap :
    ∀ (gas : Nat) (c : Cursor) (acc l : List ImageImportDescriptor),
      acc.length ≤ 257 → gas = 257 - acc.length →
      import_descriptor_loop gas c acc = .ok l → l.length ≤ 257 := by
  intro gas
  induction gas with
  | zero =>
    intro c acc l hle _ h
    simp only [import_descriptor_loop] at h
    cases h
    exact hle
  | succ g ih =>
    intro c acc l hle hgas h
    simp only [import_descriptor_loop] at h
    cases hp : ImageImportDescriptor.from_parser c with
    | error e =>
      rw [hp] at h
      dsimp only at h
      cases h
    | ok pr =>
      obtain ⟨descriptor, c2⟩ := pr
      rw [hp] at h
      dsimp only at h
      by_cases hz : descriptor.is_zeroed_out = true
      · rw [if_pos hz] at h
        cases h
        exact hle
      · rw [if_neg hz] at h
        by_cases hcap : (acc ++ [descriptor]).length > 256
        · rw [if_pos hcap] at h
          cases h
          have : acc.length ≤ 256 := by omega
          simp
          omega
        · rw [if_neg hcap] at h
          exact ih c2 (acc ++ [descriptor]) l (by simp at hcap ⊢; omega)
            (by simp; omega) h

/-- C4 (amended): import-descriptor parsing stops at the first all-zero
descriptor -- given N non-zero descriptors followed by the zero sentinel,
with N at most 257, exactly those N are returned in order -- and for
every input the returned list never holds more than 257 descriptors: the
source pushes a descriptor before checking its cap, so the bound the
code enforces is 257, not 256. -/
theorem fdw_C4_amended (pe : PE) (c : Cursor) (off : Nat)
    (ds : List ImageImportDescriptor) (rest : List Nat)
    (hconv : pe.convert_rva_to_file_offset (pe.get_import_table_idd).virtual_address
      = some off)
    (hds : ∀ d ∈ ds, desc_bounded d ∧ ¬ d.is_zeroed_out = true)
    (hlen : ds.length ≤ 257)
    (hbuf : c.data.drop off = encodeDescList ds ++ (encodeDesc zero_descriptor ++ rest)) :
    parse_import_descriptors pe c = .ok ds ∧
    (∀ (c2 : Cursor) (l : List ImageImportDescriptor),
      parse_import_descriptors pe c2 = .ok l → l.length ≤ 257) := by
  constructor
  · unfold parse_import_descriptors
    rw [hconv]
    have hl := import_descriptor_loop_parses ds 257 off c.data [] rest hds
      (by simpa using hlen) (by simp) hbuf
    simpa [Cursor.setPos] using hl
  · intro c2 l h
    unfold parse_import_descriptors at h
    cases hcv : pe.convert_rva_to_file_offset (pe.get_import_table_idd).virtual_address with
    | none => rw [hcv] at h; cases h
    | some off2 =>
      rw [hcv] at h
      exact import_descriptor_loop_cap 257 (c2.setPos off2) [] l (by simp) (by simp) h

/-- C4 counterexample: a buffer of 257 non-zero descriptors followed by
the zero sentinel makes parse_import_descriptors return 257 descriptors,
more than the 256 the claim allows (len > 256 is checked only after the
push, so the 257th descriptor is retained). -/
theorem fdw_C4_counterexample :
    parse_import_descriptors pe4C ⟨import_buf_big, 0⟩ =
      .ok (List.replicate 257 sample_descriptor) ∧
    (List.replicate 257 sample_descriptor).length = 257 ∧
    ¬ ((List.replicate 257 sample_descriptor).length ≤ 256) := by
  refine ⟨?_, by rw [List.length_replicate], by rw [List.length_replicate]; omega⟩
  unfold parse_import_descriptors
  rw [show pe4C.convert_rva_to_file_offset (pe4C.get_import_table_idd).virtual_address
      = some 0 from rfl]
  have hbuf9 : (⟨import_buf_big, 0⟩ : Cursor).data.drop 0 =
      encodeDescList (List.replicate 257 sample_descriptor) ++
        (encodeDesc zero_descriptor ++ []) := by
    rw [List.append_nil]
    rfl
  have hl := import_descriptor_loop_parses (List.replicate 257 sample_descriptor)
    257 0 import_buf_big [] []
    (by
      intro d hd
      rw [List.eq_of_mem_replicate hd]
      refine ⟨⟨?_, ?_, ?_, ?_, ?_⟩, by decide⟩ <;> norm_num [sample_descriptor])
    (by rw [List.length_nil, List.length_replicate])
    (by rw [List.length_nil])
    hbuf9
  rw [List.nil_append] at hl
  exact hl

/-- C4 witness: one non-zero descriptor then the sentinel. -/
theorem fdw_C4_witness :
    pe4C.convert_rva_to_file_offset (pe4C.get_import_table_idd).virtual_address
      = some 0 ∧
    ((parse_import_descriptors pe4C ⟨import_buf_small, 0⟩ = .ok [sample_descriptor]) ∧
     (∀ (c2 : Cursor) (l : List ImageImportDescriptor),
       parse_import_descriptors pe4C c2 = .ok l → l.length ≤ 257)) :=
  ⟨rfl, fdw_C4_amended pe4C ⟨import_buf_small, 0⟩ 0 [sample_descriptor] [] rfl
    (by
      intro d hd
      rw [List.mem_singleton] at hd
      subst hd
      refine ⟨⟨?_, ?_, ?_, ?_, ?_⟩, by decide⟩ <;> norm_num [sample_descriptor])
    (by norm_num)
    (by rw [List.append_nil]; rfl)⟩

/-! ## Resolver invariants shared by the resolver claims -/

theorem resolve_deps_loop_visited (env : Env)
    (rec : String → List (String × DepNode) → List String →
      Option (Except String DepNode × List (String × DepNode) × List String × List String))
    (hrec : ∀ p c v r c2 v2 t, v.Nodup → rec p c v = some (r, c2, v2, t) →
      v2.Nodup ∧ v ⊆ v2) :
    ∀ (names : List String) (c : List (String × DepNode)) (v : List String)
      (l : List DepNode) (c2 : List (String × DepNode)) (v2 : List String)
      (t : List String), v.Nodup →
      resolve_deps_loop env rec names c v = some (l, c2, v2, t) →
      v2.Nodup ∧ v ⊆ v2 := by
  intro names
  induction names with
  | nil =>
    intro c v l c2 v2 t hnd h
    simp only [resolve_deps_loop, Option.some.injEq, Prod.mk.injEq] at h
    obtain ⟨-, -, hv, -⟩ := h
    subst hv
    exact ⟨hnd, List.Subset.refl v⟩
  | cons dll rest ih =>
    intro c v l c2 v2 t hnd h
    simp only [resolve_deps_loop] at h
    cases hf : env.find (actual_dll_name env.schema dll) with
    | some resolved =>
      rw [hf] at h
      dsimp only at h
      cases hr : rec resolved c v with
      | none => rw [hr] at h; cases h
      | some quad =>
        obtain ⟨res, cc, vv, tt⟩ := quad
        rw [hr] at h
        dsimp only at h
        have hstep := hrec resolved c v res cc vv tt hnd hr
        cases hloop : resolve_deps_loop env rec rest cc vv with
        | none => rw [hloop] at h; cases h
        | some quad2 =>
          obtain ⟨deps, c3, v3, t2⟩ := quad2
          rw [hloop] at h
          dsimp only at h
          simp only [Option.some.injEq, Prod.mk.injEq] at h
          obtain ⟨-, -, hv, -⟩ := h
          subst hv
          have hrest := ih cc vv deps c3 v3 t2 hstep.1 hloop
          exact ⟨hrest.1, List.Subset.trans hstep.2 hrest.2⟩
    | none =>
      rw [hf] at h
      dsimp only at h
      cases hloop : resolve_deps_loop env rec rest c v with
      | none => rw [hloop] at h; cases h
      | some quad2 =>
        obtain ⟨deps, c3, v3, t2⟩ := quad2
        rw [hloop] at h
        dsimp only at h
        simp only [Option.some.injEq, Prod.mk.injEq] at h
        obtain ⟨-, -, hv, -⟩ := h
        subst hv
        exact ih c v deps c3 v3 t2 hnd hloop

theorem gdr_visited_invariant (env : Env) :
    ∀ (fuel : Nat) (p : String) (c : List (String × DepNode)) (v : List String)
      (res : Except String DepNode) (c2 : List (String × DepNode))
      (v2 : List String) (t : List String), v.Nodup →
      get_dll_dependencies_recursive env fuel p c v = some (res, c2, v2, t) →
      v2.Nodup ∧ v ⊆ v2 ∧ (∀ n, res = .ok n → p ∉ v → p ∉ v2) := by
  intro fuel
  induction fuel with
  | zero => intro p c v res c2 v2 t _ h; cases h
  | succ f ih =>
    intro p c v res c2 v2 t hnd h
    simp only [get_dll_dependencies_recursive] at h
    cases hcache : assocGet c p with
    | some cached =>
      rw [hcache] at h
      dsimp only at h
      simp only [Option.some.injEq, Prod.mk.injEq] at h
      obtain ⟨-, -, hv, -⟩ := h
      subst hv
      exact ⟨hnd, List.Subset.refl v, fun n _ hp => hp⟩
    | none =>
      rw [hcache] at h
      dsimp only at h
      by_cases hv : p ∈ v
      · rw [if_pos hv] at h
        simp only [Option.some.injEq, Prod.mk.injEq] at h
        obtain ⟨hres, -, hveq, -⟩ := h
        subst hveq
        refine ⟨hnd, List.Subset.refl v, fun n hn _ => ?_⟩
        rw [← hres] at hn
        cases hn
      · rw [if_neg hv] at h
        cases hp : env.parse p with
        | error e =>
          rw [hp] at h
          dsimp only at h
          simp only [Option.some.injEq, Prod.mk.injEq] at h
          obtain ⟨hres, -, hveq, -⟩ := h
          subst hveq
          refine ⟨List.nodup_cons.mpr ⟨hv, hnd⟩, List.subset_cons_self _ _,
            fun n hn _ => ?_⟩
          rw [← hres] at hn
          cases hn
        | ok dlls =>
          rw [hp] at h
          dsimp only at h
          cases hloop : resolve_deps_loop env (get_dll_dependencies_recursive env f)
              dlls c (p :: v) with
          | none => rw [hloop] at h; cases h
          | some quad =>
            obtain ⟨deps, cc, vv, tt⟩ := quad
            rw [hloop] at h
            dsimp only at h
            simp only [Option.some.injEq, Prod.mk.injEq] at h
            obtain ⟨hres, -, hveq, -⟩ := h
            have hl := resolve_deps_loop_visited env
              (get_dll_dependencies_recursive env f)
              (fun p3 c3 v3 r3 c4 v4 t4 hnd3 h3 =>
                let r := ih p3 c3 v3 r3 c4 v4 t4 hnd3 h3
                ⟨r.1, r.2.1⟩)
              dlls c (p :: v) deps cc vv tt
              (List.nodup_cons.mpr ⟨hv, hnd⟩) hloop
            subst hveq
            refine ⟨hl.1.erase p, ?_, ?_⟩
            · intro q hq
              have hqin : q ∈ vv := hl.2 (List.mem_cons_of_mem _ hq)
              have hqne : q ≠ p := fun he => hv (he ▸ hq)
              exact (List.Nodup.mem_erase_iff hl.1).mpr ⟨hqne, hqin⟩
            · intro n _ _ hmem
              exact ((List.Nodup.mem_erase_iff hl.1).mp hmem).1 rfl

/-! ## Claim C2 -/

/-- C2: for every pair of images A and B importing each other, recursive
resolution (resolve with recursive=true) terminates (fuel 3 suffices,
witnessing termination of the unbounded source recursion), and B's
subtree under A holds one leaf: a node for A's path annotated with the
circular-dependency message instead of a further descent.  Only that
branch is truncated -- the overall result is still an Ok tree rooted at
A with B's full node as its child. -/
theorem fdw_C2_cycle_truncates_branch (env : Env) (pathA pathB nameA nameB : String)
    (hne : pathA ≠ pathB)
    (hpA : env.parse pathA = .ok [nameB])
    (hpB : env.parse pathB = .ok [nameA])
    (hfB : env.find (actual_dll_name env.schema nameB) = some pathB)
    (hfA : env.find (actual_dll_name env.schema nameA) = some pathA) :
    resolve_dependencies env 3 pathA true =
      some (.ok (DepNode.node (to_ascii_lowercase (path_file_name pathA)) pathA
        [DepNode.node (to_ascii_lowercase (path_file_name pathB)) pathB
          [DepNode.failed (to_ascii_lowercase nameA) pathA
            ("Failed to resolve dependencies: Circular dependency detected in dll: "
              ++ pathA)]])) := by
  simp [resolve_dependencies, get_dll_dependencies_recursive, resolve_deps_loop,
    assocGet, hpA, hpB, hfA, hfB, hne, Ne.symm hne]
  rw [← String.append_assoc]
  congr 1

/-- C2 witness: two concrete images importing each other. -/
theorem fdw_C2_witness :
    ("C:\\a\\a.exe" : String) ≠ "C:\\b\\b.exe" ∧
    resolve_dependencies env2W 3 "C:\\a\\a.exe" true =
      some (.ok (DepNode.node (to_ascii_lowercase (path_file_name "C:\\a\\a.exe"))
        "C:\\a\\a.exe"
        [DepNode.node (to_ascii_lowercase (path_file_name "C:\\b\\b.exe"))
          "C:\\b\\b.exe"
          [DepNode.failed (to_ascii_lowercase "a.dll") "C:\\a\\a.exe"
            ("Failed to resolve dependencies: Circular dependency detected in dll: "
              ++ "C:\\a\\a.exe")]])) :=
  ⟨by decide,
   fdw_C2_cycle_truncates_branch env2W "C:\\a\\a.exe" "C:\\b\\b.exe"
     "a.dll" "b.dll" (by decide) rfl rfl rfl rfl⟩

/-! ## Claim C5 -/

/-- C5 counterexample: a call of the recursive resolver on a path not in
the visited set, whose parse fails, returns with the visited set changed:
it enters with an empty visited set and returns the error with the
visited set still holding the path.  The visited set is therefore not
restored on every return, contradicting the claim's "whether it returns
a node or an error". -/
theorem fdw_C5_counterexample :
    get_dll_dependencies_recursive env5C 1 "a.exe" [] [] =
      some (.error "Failed to parse PE \"a.exe\" (boom)", [], ["a.exe"], ["a.exe"]) ∧
    (["a.exe"] : List String) ≠ ([] : List String) :=
  ⟨rfl, by decide⟩

/-- C5 (amended): for a call on a duplicate-free visited set not holding
p, every entry present on entry is still present on return, and when the
call returns a node (Ok), p itself is not in the returned visited set;
but the set is not restored exactly: a path whose parse fails during the
call (p itself, or a descendant) is left behind in the visited set. -/
theorem fdw_C5_amended (env : Env) (fuel : Nat) (p : String)
    (cache : List (String × DepNode)) (visited : List String)
    (res : Except String DepNode) (cache2 : List (String × DepNode))
    (visited2 : List String) (trace : List String)
    (hnd : visited.Nodup) (hp : p ∉ visited)
    (h : get_dll_dependencies_recursive env fuel p cache visited =
      some (res, cache2, visited2, trace)) :
    visited ⊆ visited2 ∧ (∀ n, res = .ok n → p ∉ visited2) := by
  have r := gdr_visited_invariant env fuel p cache visited res cache2 visited2 trace hnd h
  exact ⟨r.2.1, fun n hn => r.2.2 n hn hp⟩

/-- C5 witness: a successfully resolved leaf image. -/
theorem fdw_C5_witness :
    ([] : List String).Nodup ∧ "a.exe" ∉ ([] : List String) ∧
    (([] : List String) ⊆ ([] : List String) ∧
     (∀ n, (Except.ok (DepNode.node "a.exe" "a.exe" []) : Except String DepNode)
        = .ok n → "a.exe" ∉ ([] : List String))) :=
  ⟨List.nodup_nil, by decide,
   fdw_C5_amended env5W 1 "a.exe" [] []
     (.ok (DepNode.node "a.exe" "a.exe" []))
     [("a.exe", DepNode.node "a.exe" "a.exe" [])] [] ["a.exe"]
     List.nodup_nil (by decide) rfl⟩

/-! ## Claim C6 -/

/-- C6 counterexample: the import API-MS-WIN-FOO-L1-1-0.DLL matches the
virtual-library convention and has no entry in the (empty) apiset
mapping, yet resolution does search the filesystem locations for the
virtual name itself: env6C's find returns a hit for it, and the
resulting child node is a fully resolved node whose path is the found
file, not a not-found annotation. -/
theorem fdw_C6_counterexample :
    get_dll_dependencies_recursive env6C 2 "C:\\r\\root.exe" [] [] =
      some (.ok (DepNode.node "root.exe" "C:\\r\\root.exe"
        [DepNode.node "api-ms-win-foo-l1-1-0.dll"
          "C:\\x\\api-ms-win-foo-l1-1-0.dll" []]),
        [("C:\\x\\api-ms-win-foo-l1-1-0.dll",
          DepNode.node "api-ms-win-foo-l1-1-0.dll"
            "C:\\x\\api-ms-win-foo-l1-1-0.dll" []),
         ("C:\\r\\root.exe",
          DepNode.node "root.exe" "C:\\r\\root.exe"
            [DepNode.node "api-ms-win-foo-l1-1-0.dll"
              "C:\\x\\api-ms-win-foo-l1-1-0.dll" []])],
        [], ["C:\\r\\root.exe", "C:\\x\\api-ms-win-foo-l1-1-0.dll"]) ∧
    ("C:\\x\\api-ms-win-foo-l1-1-0.dll" : String) ≠ "<unknown>" :=
  ⟨rfl, by decide⟩

/-- C6 (amended): a virtual-convention import with no apiset-mapping
entry is resolved by falling back to a filesystem search for the
(lowercased) virtual name itself; only when that search also fails is
the not-found node (path "<unknown>", no dependencies field) recorded,
and resolution continues with the next import either way. -/
theorem fdw_C6_amended (env : Env) (root v w pw : String)
    (hparse : env.parse root = .ok [v, w])
    (hvirt : is_dll_from_apiset_schema (to_ascii_lowercase v) = true)
    (hnomap : apiset.find_dll (to_ascii_lowercase v) env.schema = none)
    (hfv : env.find (to_ascii_lowercase v) = none)
    (hfw : env.find (actual_dll_name env.schema w) = some pw)
    (hpw : env.parse pw = .ok [])
    (hner : pw ≠ root) :
    resolve_dependencies env 2 root true =
      some (.ok (DepNode.node (to_ascii_lowercase (path_file_name root)) root
        [DepNode.notFound (to_ascii_lowercase v) "<unknown>",
         DepNode.node (to_ascii_lowercase (path_file_name pw)) pw []])) := by
  have hav : actual_dll_name env.schema v = to_ascii_lowercase v := by
    simp [actual_dll_name, hvirt, hnomap]
  simp [resolve_dependencies, get_dll_dependencies_recursive, resolve_deps_loop,
    assocGet, hparse, hav, hfv, hfw, hpw, hner, Ne.symm hner]

/-- C6 witness: an unmapped virtual import that is also absent from the
filesystem, followed by an ordinary resolvable import. -/
theorem fdw_C6_witness :
    env6W.parse "C:\\r\\root.exe" = .ok ["api-ms-win-x-l1-1-0.dll", "b.dll"] ∧
    resolve_dependencies env6W 2 "C:\\r\\root.exe" true =
      some (.ok (DepNode.node
        (to_ascii_lowercase (path_file_name "C:\\r\\root.exe")) "C:\\r\\root.exe"
        [DepNode.notFound (to_ascii_lowercase "api-ms-win-x-l1-1-0.dll") "<unknown>",
         DepNode.node (to_ascii_lowercase (path_file_name "C:\\s\\b.dll"))
           "C:\\s\\b.dll" []])) :=
  ⟨rfl,
   fdw_C6_amended env6W "C:\\r\\root.exe" "api-ms-win-x-l1-1-0.dll" "b.dll"
     "C:\\s\\b.dll" rfl (by decide) rfl rfl rfl rfl (by decide)⟩

/-! ## Claim C7 -/

/-- C7: with A importing B, C importing B, and a root importing A and C
(all paths distinct), recursive resolution returns an Ok tree in which
the B-subtree under A and the B-subtree under C are the same node value
(the second is served from the cache), and the trace of paths passed to
the parser is exactly [root, A, B, C], in which B occurs once: B's file
is parsed exactly once during the whole resolve call. -/
theorem fdw_C7_cache_sharing (env : Env) (root pA pB pC nA nB nC : String)
    (h1 : root ≠ pA) (h2 : root ≠ pB) (h3 : root ≠ pC)
    (h4 : pA ≠ pB) (h5 : pA ≠ pC) (h6 : pB ≠ pC)
    (hroot : env.parse root = .ok [nA, nC])
    (hA : env.parse pA = .ok [nB])
    (hC : env.parse pC = .ok [nB])
    (hB : env.parse pB = .ok [])
    (ffA : env.find (actual_dll_name env.schema nA) = some pA)
    (ffC : env.find (actual_dll_name env.schema nC) = some pC)
    (ffB : env.find (actual_dll_name env.schema nB) = some pB) :
    (∃ cacheF,
      get_dll_dependencies_recursive env 3 root [] [] =
        some (.ok (DepNode.node (to_ascii_lowercase (path_file_name root)) root
          [DepNode.node (to_ascii_lowercase (path_file_name pA)) pA
            [DepNode.node (to_ascii_lowercase (path_file_name pB)) pB []],
           DepNode.node (to_ascii_lowercase (path_file_name pC)) pC
            [DepNode.node (to_ascii_lowercase (path_file_name pB)) pB []]]),
          cacheF, [], [root, pA, pB, pC])) ∧
    [root, pA, pB, pC].count pB = 1 := by
  constructor
  · refine ⟨[(pB, DepNode.node (to_ascii_lowercase (path_file_name pB)) pB []),
      (pA, DepNode.node (to_ascii_lowercase (path_file_name pA)) pA
        [DepNode.node (to_ascii_lowercase (path_file_name pB)) pB []]),
      (pC, DepNode.node (to_ascii_lowercase (path_file_name pC)) pC
        [DepNode.node (to_ascii_lowercase (path_file_name pB)) pB []]),
      (root, DepNode.node (to_ascii_lowercase (path_file_name root)) root
        [DepNode.node (to_ascii_lowercase (path_file_name pA)) pA
          [DepNode.node (to_ascii_lowercase (path_file_name pB)) pB []],
         DepNode.node (to_ascii_lowercase (path_file_name pC)) pC
          [DepNode.node (to_ascii_lowercase (path_file_name pB)) pB []]])], ?_⟩
    simp [get_dll_dependencies_recursive, resolve_deps_loop, assocGet, assocInsert,
      hroot, hA, hB, hC, ffA, ffB, ffC, h1, h2, h3, h4, h5, h6,
      Ne.symm h1, Ne.symm h2, Ne.symm h3, Ne.symm h4, Ne.symm h5, Ne.symm h6]
  · simp [List.count_cons, List.count_nil, Ne.symm h2, Ne.symm h4, h6]

/-- C7 witness: a concrete diamond root → {A, C} → B. -/
theorem fdw_C7_witness :
    env7W.parse "C:\\t\\root.exe" = .ok ["a.dll", "c.dll"] ∧
    ((∃ cacheF,
      get_dll_dependencies_recursive env7W 3 "C:\\t\\root.exe" [] [] =
        some (.ok (DepNode.node
          (to_ascii_lowercase (path_file_name "C:\\t\\root.exe")) "C:\\t\\root.exe"
          [DepNode.node (to_ascii_lowercase (path_file_name "C:\\t\\a.dll"))
            "C:\\t\\a.dll"
            [DepNode.node (to_ascii_lowercase (path_file_name "C:\\t\\b.dll"))
              "C:\\t\\b.dll" []],
           DepNode.node (to_ascii_lowercase (path_file_name "C:\\t\\c.dll"))
            "C:\\t\\c.dll"
            [DepNode.node (to_ascii_lowercase (path_file_name "C:\\t\\b.dll"))
              "C:\\t\\b.dll" []]]),
          cacheF, [], ["C:\\t\\root.exe", "C:\\t\\a.dll", "C:\\t\\b.dll",
            "C:\\t\\c.dll"])) ∧
     ["C:\\t\\root.exe", "C:\\t\\a.dll", "C:\\t\\b.dll", "C:\\t\\c.dll"].count
       "C:\\t\\b.dll" = 1) :=
  ⟨rfl,
   fdw_C7_cache_sharing env7W "C:\\t\\root.exe" "C:\\t\\a.dll" "C:\\t\\b.dll"
     "C:\\t\\c.dll" "a.dll" "b.dll" "c.dll"
     (by decide) (by decide) (by decide) (by decide) (by decide) (by decide)
     rfl rfl rfl rfl rfl rfl rfl⟩
